import Mathlib

/-!
Shallow embedding of the ViraLoop / NEXUS workflow-orchestration core
(`src/backend/agenci/*.py`, `src/backend/generacja/compositor.py`,
`src/backend/konfiguracja.py`) in Lean 4.

Modelling conventions:
- Python `float` money/time values are modelled as `ℚ` (the claims concern
  accumulation structure, not floating-point rounding).
- Python `Optional[...]`/`None` becomes `Option`; a `TypedDict` becomes a
  structure; a partial state-update dict returned by a LangGraph node becomes
  the structure `Aktualizacja`, in which `some v` means "key present with
  value v" and `none` means "key absent" (the agents never write `None` as a
  key's value).  The LangGraph channel merge (`zastosuj`) overwrites a field
  when the update carries the key, except `bledy`, whose channel is declared
  `Annotated[List[str], add]` in `schematy.py` and therefore concatenates.
- External effects (OpenAI calls, file system, FFmpeg) are parameters: each
  agent takes an environment value describing the outcome of its external
  calls (a parsed LLM response plus token usage, or a raised exception
  message).  The JSON-field defaulting done by `.get(...)` in the Python code
  is reproduced through `Option` fields in the parsed-response structures.
- `asyncio.gather(..., return_exceptions=True)` returns results in argument
  (declared) order regardless of completion order; the fan-in merge is
  therefore embedded as a fold over the declared-order list of branch
  results.
- Polish identifiers keep the source spelling, ASCII-folded where Lean
  rejects the diacritic (for example `hook_otwierający` becomes
  `hook_otwierajacy`); the dict key `"end"` of audio segments is the field
  `koniec` because `end` is a Lean keyword.
-/

namespace ViraLoop

/-! ## Configuration (src/backend/konfiguracja.py, default values) -/

/-- `Konfiguracja.MAKS_PONOWNYCH_PROB` (konfiguracja.py:83): default 3. -/
def MAKS_PONOWNYCH_PROB : Nat := 3

/-- `Konfiguracja.PROG_JAKOSCI` (konfiguracja.py:84): default 60. -/
def PROG_JAKOSCI : Int := 60

/-- `Konfiguracja.MAKS_OBRAZOW_NA_SCENA` (konfiguracja.py:82): default 5. -/
def MAKS_OBRAZOW_NA_SCENA : Nat := 5

/-- `Konfiguracja.MAKS_DLUGOSC_WIDEO` (konfiguracja.py:81): default 180. -/
def MAKS_DLUGOSC_WIDEO : Int := 180

/-! ## Data model (src/backend/agenci/schematy.py) -/

/-- `ScenariuszScena` (schematy.py:12-21). -/
structure ScenariuszScena where
  numer : Nat
  czas_start : ℚ
  czas_koniec : ℚ
  opis_wizualny : String
  tekst_narracji : String
  tekst_na_ekranie : String
  emocja : String
  tempo : String
deriving DecidableEq

/-- `PlanTresci` (schematy.py:24-38). -/
structure PlanTresci where
  tytul : String
  temat : String
  platforma_docelowa : List String
  dlugosc_sekund : Int
  typ_haka : String
  hak_wizualny : String
  hak_tekstowy : String
  hak_werbalny : String
  luk_emocjonalny : List String
  styl_wizualny : String
  ton_glosu : String
  hashtagi : List String
  przewidywane_zaangazowanie : ℚ
deriving DecidableEq

/-- `ScenariuszWideo` (schematy.py:41-50); `hook_otwierający` ASCII-folded. -/
structure ScenariuszWideo where
  tytul : String
  streszczenie : String
  sceny : List ScenariuszScena
  hook_otwierajacy : String
  cta : String
  calkowity_czas : ℚ
  liczba_slow : Nat
  wynik_zaangazowania : ℚ
deriving DecidableEq

/-- One audio segment dict `{numer, start, end, tekst}` built by
`rezyser_glosu` (rezyser_glosu.py:189-200); `end` is the field `koniec`. -/
structure SegmentAudio where
  numer : Nat
  start : ℚ
  koniec : ℚ
  tekst : String
deriving DecidableEq

/-- `AudioWideo` (schematy.py:53-61). -/
structure AudioWideo where
  sciezka_pliku : String
  czas_trwania : ℚ
  jezyk : String
  glos : String
  format : String
  transkrypcja : String
  segmenty : List SegmentAudio
deriving DecidableEq

/-- `ObrazSceny` (schematy.py:64-70). -/
structure ObrazSceny where
  numer_sceny : Nat
  sciezka_pliku : String
  prompt_uzyty : String
  rozdzielczosc : String
  format : String
deriving DecidableEq

/-- `WizualiaWideo` (schematy.py:73-78). -/
structure WizualiaWideo where
  obrazy : List ObrazSceny
  styl_wizualny : String
  paleta_kolorow : String
  liczba_obrazow : Nat
deriving DecidableEq

/-- `OcenaJakosci` (schematy.py:81-91). -/
structure OcenaJakosci where
  wynik_ogolny : Int
  wynik_haka : Int
  wynik_scenariusza : Int
  wynik_wizualny : Int
  wynik_audio : Int
  slabe_punkty : List String
  mocne_punkty : List String
  sugestie : List String
  zatwierdzone : Bool
deriving DecidableEq

/-- `OcenaWiralnosci` (schematy.py:94-103); `wynik_platformy` is a JSON dict
modelled as an association list. -/
structure OcenaWiralnosci where
  wynik_nwv : Int
  wynik_haka : Int
  wynik_zatrzymania : Int
  wynik_udostepnialnosci : Int
  wynik_platformy : List (String × Int)
  odznaka : String
  uzasadnienie : String
  wskazowki_optymalizacji : List String
deriving DecidableEq

/-- `Wideo` (schematy.py:106-116). -/
structure Wideo where
  sciezka_pliku : String
  miniatura_sciezka : String
  format : String
  rozdzielczosc : String
  czas_trwania : ℚ
  rozmiar_mb : ℚ
  wariant_tiktok : Option String
  wariant_youtube : Option String
  wariant_instagram : Option String
deriving DecidableEq

/-- The brand-profile dict `marka`; the engine only reads the key
`"kolory"` with default `""` (producent_wizualny.py:69), so the dict is
modelled by that one key (absent ≡ `""`). -/
structure Marka where
  kolory : String
deriving DecidableEq

/-- The free-form `metadane` dict, modelled by the keys the engine actually
writes: `sesja_id`/`status`/`czas_start` at start (orkiestrator.py:254-258),
`status`/`komunikat` in `koniec_z_bledem` (orkiestrator.py:117-121) and
`status`/`compositor_wersja` in `kompozytor` (compositor.py:609-613).
Keys not yet written hold `""`. -/
structure Metadane where
  sesja_id : String
  status : String
  czas_start : ℚ
  komunikat : String
  compositor_wersja : String
deriving DecidableEq

/-- `StanNEXUS` (schematy.py:123-152): the LangGraph flow state. -/
structure StanNEXUS where
  brief : String
  marka : Marka
  kontekst_marki : String
  platforma : List String
  plan_tresci : Option PlanTresci
  scenariusz : Option ScenariuszWideo
  audio : Option AudioWideo
  wizualia : Option WizualiaWideo
  ocena_jakosci : Option OcenaJakosci
  ocena_wiralnosci : Option OcenaWiralnosci
  wideo : Option Wideo
  krok_aktualny : String
  iteracja : Nat
  bledy : List String
  metadane : Metadane
  koszt_calkowity_usd : ℚ
  czas_generacji_s : ℚ
deriving DecidableEq

/-! ## Partial state updates and the LangGraph merge -/

/-- A partial state-update dict returned by a LangGraph node: `some v` means
the key is present with value `v`, `none` that the key is absent.  `bledy`
uses the empty list for an absent key because its channel reducer is list
concatenation (schematy.py:147), for which absence and `[]` coincide. -/
structure Aktualizacja where
  plan_tresci : Option PlanTresci
  scenariusz : Option ScenariuszWideo
  audio : Option AudioWideo
  wizualia : Option WizualiaWideo
  ocena_jakosci : Option OcenaJakosci
  ocena_wiralnosci : Option OcenaWiralnosci
  wideo : Option Wideo
  krok_aktualny : Option String
  iteracja : Option Nat
  bledy : List String
  metadane : Option Metadane
  koszt_calkowity_usd : Option ℚ
  czas_generacji_s : Option ℚ
deriving DecidableEq

/-- The empty update dict `{}`. -/
def pusta : Aktualizacja :=
  { plan_tresci := none
    scenariusz := none
    audio := none
    wizualia := none
    ocena_jakosci := none
    ocena_wiralnosci := none
    wideo := none
    krok_aktualny := none
    iteracja := none
    bledy := []
    metadane := none
    koszt_calkowity_usd := none
    czas_generacji_s := none }

/-- Overwrite-if-present for an `Optional` state field. -/
def nadpisz {α : Type} (nowa : Option α) (stara : Option α) : Option α :=
  match nowa with
  | some v => some v
  | none => stara

/-- LangGraph channel update: every key present in the node's returned dict
overwrites the state field, except `bledy`, whose `Annotated[List[str], add]`
channel (schematy.py:147) appends the new entries to the old list. -/
def zastosuj (stan : StanNEXUS) (a : Aktualizacja) : StanNEXUS :=
  { stan with
    plan_tresci := nadpisz a.plan_tresci stan.plan_tresci
    scenariusz := nadpisz a.scenariusz stan.scenariusz
    audio := nadpisz a.audio stan.audio
    wizualia := nadpisz a.wizualia stan.wizualia
    ocena_jakosci := nadpisz a.ocena_jakosci stan.ocena_jakosci
    ocena_wiralnosci := nadpisz a.ocena_wiralnosci stan.ocena_wiralnosci
    wideo := nadpisz a.wideo stan.wideo
    krok_aktualny := (a.krok_aktualny).getD stan.krok_aktualny
    iteracja := (a.iteracja).getD stan.iteracja
    bledy := stan.bledy ++ a.bledy
    metadane := (a.metadane).getD stan.metadane
    koszt_calkowity_usd := (a.koszt_calkowity_usd).getD stan.koszt_calkowity_usd
    czas_generacji_s := (a.czas_generacji_s).getD stan.czas_generacji_s }

/-! ## Shared helpers for external LLM calls -/

/-- Token usage reported by an OpenAI chat completion. -/
structure Uzycie where
  prompt_tokens : Nat
  completion_tokens : Nat
deriving DecidableEq

/-- Outcome of one chat-completion call inside an agent's `try` block:
either a parsed JSON response `α` together with token usage, or a raised
exception carrying its message. -/
inductive WynikLLM (α : Type) where
  | odpowiedz (dane : α) (uzycie : Uzycie)
  | wyjatek (komunikat : String)
deriving DecidableEq

/-- Cost of a `gpt-4o-mini` call: `(p*0.15 + c*0.60)/1_000_000`
(strateg_tresci.py:115, pisarz_scenariuszy.py:180). -/
def koszt_ekonomiczny (u : Uzycie) : ℚ :=
  ((u.prompt_tokens : ℚ) * 0.15 + (u.completion_tokens : ℚ) * 0.60) / 1000000

/-- Cost of a `gpt-4o` call: `(p*2.50 + c*10.0)/1_000_000`
(recenzent_jakosci.py:231). -/
def koszt_inteligentny (u : Uzycie) : ℚ :=
  ((u.prompt_tokens : ℚ) * 2.50 + (u.completion_tokens : ℚ) * 10.0) / 1000000

/-- Python `str.strip()`: drop whitespace from both ends (structurally
recursive so that concrete evaluations reduce in the kernel). -/
def przytnij (s : String) : String :=
  ⟨((s.data.dropWhile Char.isWhitespace).reverse.dropWhile Char.isWhitespace).reverse⟩

/-- Helper for `slowa`: scan the character list, emitting the accumulated
word (in reverse) at each whitespace boundary. -/
def podziel_pom : List Char → List Char → List (List Char)
  | [], biezace => if biezace.isEmpty then [] else [biezace.reverse]
  | c :: reszta, biezace =>
    if Char.isWhitespace c then
      if biezace.isEmpty then podziel_pom reszta []
      else biezace.reverse :: podziel_pom reszta []
    else podziel_pom reszta (c :: biezace)

/-- Python `str.split()`: split on whitespace runs, dropping empty pieces. -/
def slowa (s : String) : List String :=
  (podziel_pom s.data []).map (fun l => ⟨l⟩)

/-- Python `sep.join(czesci)` (structurally recursive). -/
def zlacz (sep : String) : List String → String
  | [] => ""
  | [x] => x
  | x :: y :: reszta => x ++ sep ++ zlacz sep (y :: reszta)

/-- Python slicing `s[:n]` by codepoints (structurally recursive). -/
def wez (n : Nat) (s : String) : String := ⟨s.data.take n⟩

/-- Lookup in a string-keyed dict literal, Python `dict.get(klucz)`. -/
def szukaj (slownik : List (String × String)) (klucz : String) : Option String :=
  (slownik.find? (fun p => p.1 == klucz)).map (fun p => p.2)

/-- Character-list prefix test (helper for the substring test below). -/
def zaczyna_sie (maly duzy : List Char) : Bool :=
  match maly, duzy with
  | [], _ => true
  | _ :: _, [] => false
  | a :: ogon_a, b :: ogon_b => a == b && zaczyna_sie ogon_a ogon_b

/-- Python's substring containment `maly in duzy` on strings. -/
def ma_podciag (maly duzy : List Char) : Bool :=
  match duzy with
  | [] => zaczyna_sie maly []
  | _ :: reszta => zaczyna_sie maly duzy || ma_podciag maly reszta

/-! ## Routers (src/backend/agenci/orkiestrator.py:76-105) -/

/-- The closed label set of `routing_po_recenzji`. -/
inductive CelPoRecenzji where
  | compositor
  | pisarz_scenariuszy
  | koniec_z_bledem
deriving DecidableEq

/-- `routing_po_recenzji` (orkiestrator.py:76-96): approval is checked first;
only when the review is absent or not approved does the iteration cap decide
between retry and give-up. -/
def routing_po_recenzji (stan : StanNEXUS) : CelPoRecenzji :=
  let zatwierdzona :=
    match stan.ocena_jakosci with
    | some ocena => ocena.zatwierdzone
    | none => false
  if zatwierdzona then CelPoRecenzji.compositor
  else if MAKS_PONOWNYCH_PROB ≤ stan.iteracja then CelPoRecenzji.koniec_z_bledem
  else CelPoRecenzji.pisarz_scenariuszy

/-- The closed label set of `routing_po_strategii`. -/
inductive CelPoStrategii where
  | pisarz_scenariuszy
  | koniec_z_bledem
deriving DecidableEq

/-- `routing_po_strategii` (orkiestrator.py:99-105). -/
def routing_po_strategii (stan : StanNEXUS) : CelPoStrategii :=
  match stan.plan_tresci with
  | some _ => CelPoStrategii.pisarz_scenariuszy
  | none => CelPoStrategii.koniec_z_bledem

/-! ## Node: koniec_z_bledem (orkiestrator.py:112-122) -/

/-- The terminal-failure node: records the failure status in `metadane` and
sets `krok_aktualny`; it touches neither `iteracja`, `bledy` nor the cost. -/
def koniec_z_bledem (stan : StanNEXUS) : Aktualizacja :=
  { pusta with
    krok_aktualny := some "blad_krytyczny"
    metadane := some { stan.metadane with
      status := "blad"
      komunikat := "Nie udało się wygenerować wideo po 3 próbach" } }

/-! ## Agent 1: strateg_tresci (src/backend/agenci/strateg_tresci.py) -/

/-- The parsed JSON response of the Strateg's LLM call; `none` mirrors a key
absent from the JSON, defaulted by `.get(...)` (strateg_tresci.py:118-132). -/
structure DanePlanu where
  tytul : Option String
  temat : Option String
  platforma_docelowa : Option (List String)
  dlugosc_sekund : Option Int
  typ_haka : Option String
  hak_wizualny : Option String
  hak_tekstowy : Option String
  hak_werbalny : Option String
  luk_emocjonalny : Option (List String)
  styl_wizualny : Option String
  ton_glosu : Option String
  hashtagi : Option (List String)
  przewidywane_zaangazowanie : Option ℚ
deriving DecidableEq

/-- `strateg_tresci` (strateg_tresci.py:77-145).  The prompt construction and
the OpenAI call are external; the call's outcome is the `llm` argument. -/
def strateg_tresci (stan : StanNEXUS) (llm : WynikLLM DanePlanu) : Aktualizacja :=
  match llm with
  | .odpowiedz dane uzycie =>
    let plan : PlanTresci :=
      { tytul := dane.tytul.getD "Wideo NEXUS"
        temat := dane.temat.getD (wez 100 stan.brief)
        platforma_docelowa := dane.platforma_docelowa.getD ["tiktok", "youtube"]
        dlugosc_sekund := min (dane.dlugosc_sekund.getD 60) MAKS_DLUGOSC_WIDEO
        typ_haka := dane.typ_haka.getD "luk_ciekawosci"
        hak_wizualny := dane.hak_wizualny.getD ""
        hak_tekstowy := dane.hak_tekstowy.getD ""
        hak_werbalny := dane.hak_werbalny.getD ""
        luk_emocjonalny := dane.luk_emocjonalny.getD ["ciekawość", "inspiracja"]
        styl_wizualny := dane.styl_wizualny.getD "nowoczesny, minimalistyczny"
        ton_glosu := dane.ton_glosu.getD "energiczny"
        hashtagi := dane.hashtagi.getD []
        przewidywane_zaangazowanie := dane.przewidywane_zaangazowanie.getD 0.7 }
    { pusta with
      plan_tresci := some plan
      krok_aktualny := some "plan_gotowy"
      koszt_calkowity_usd := some (stan.koszt_calkowity_usd + koszt_ekonomiczny uzycie) }
  | .wyjatek e =>
    { pusta with
      bledy := ["Strateg Treści: " ++ e]
      krok_aktualny := some "blad_stratega" }

/-! ## Agent 2: pisarz_scenariuszy (src/backend/agenci/pisarz_scenariuszy.py) -/

/-- One raw scene dict of the Pisarz's JSON response. -/
structure DaneSceny where
  czas_start : Option ℚ
  czas_koniec : Option ℚ
  opis_wizualny : Option String
  tekst_narracji : Option String
  tekst_na_ekranie : Option String
  emocja : Option String
  tempo : Option String
deriving DecidableEq

/-- The parsed JSON response of the Pisarz's LLM call. -/
structure DaneScenariusza where
  tytul : Option String
  streszczenie : Option String
  hook_otwierajacy : Option String
  cta : Option String
  liczba_slow : Option Nat
  wynik_zaangazowania : Option ℚ
  sceny : Option (List DaneSceny)
deriving DecidableEq

/-- Scene validation/normalization loop (pisarz_scenariuszy.py:147-163):
scene `i` is renumbered `i+1`, missing start/end times default to the running
clock and `czas_aktualny + 10`. -/
def normalizuj_sceny (surowe : List DaneSceny) : List ScenariuszScena :=
  (surowe.foldl
    (fun (acc : List ScenariuszScena × Nat × ℚ) scena_s =>
      let czas_koniec := scena_s.czas_koniec.getD (acc.2.2 + 10)
      (acc.1 ++ [{ numer := acc.2.1 + 1
                   czas_start := scena_s.czas_start.getD acc.2.2
                   czas_koniec := czas_koniec
                   opis_wizualny := scena_s.opis_wizualny.getD ""
                   tekst_narracji := scena_s.tekst_narracji.getD ""
                   tekst_na_ekranie := scena_s.tekst_na_ekranie.getD ""
                   emocja := scena_s.emocja.getD "neutralna"
                   tempo := scena_s.tempo.getD "normalne" }],
       acc.2.1 + 1, czas_koniec))
    ([], 0, 0)).1

/-- `pisarz_scenariuszy` (pisarz_scenariuszy.py:95-195).  The retry-feedback
context only changes the prompt string sent to the external model, which is
absorbed into the `llm` outcome. -/
def pisarz_scenariuszy (stan : StanNEXUS) (llm : WynikLLM DaneScenariusza) : Aktualizacja :=
  match stan.plan_tresci with
  | none =>
    { pusta with
      bledy := ["Pisarz Scenariuszy: brak planu treści"]
      krok_aktualny := some "blad_pisarza" }
  | some plan =>
    match llm with
    | .odpowiedz dane uzycie =>
      let sceny := normalizuj_sceny (dane.sceny.getD [])
      let calkowity_czas :=
        match sceny.getLast? with
        | some s => s.czas_koniec
        | none => (plan.dlugosc_sekund : ℚ)
      let scenariusz : ScenariuszWideo :=
        { tytul := dane.tytul.getD plan.tytul
          streszczenie := dane.streszczenie.getD ""
          sceny := sceny
          hook_otwierajacy := dane.hook_otwierajacy.getD
            (match sceny.head? with
             | some s => s.tekst_narracji
             | none => "")
          cta := dane.cta.getD "Obserwuj, aby nie przegapić!"
          calkowity_czas := calkowity_czas
          liczba_slow := dane.liczba_slow.getD
            ((sceny.map (fun s => (slowa s.tekst_narracji).length)).sum)
          wynik_zaangazowania := dane.wynik_zaangazowania.getD 0.75 }
      { pusta with
        scenariusz := some scenariusz
        krok_aktualny := some "scenariusz_gotowy"
        koszt_calkowity_usd := some (stan.koszt_calkowity_usd + koszt_ekonomiczny uzycie) }
    | .wyjatek e =>
      { pusta with
        bledy := ["Pisarz Scenariuszy: " ++ e]
        krok_aktualny := some "blad_pisarza" }

/-! ## Agent 3: rezyser_glosu (src/backend/agenci/rezyser_glosu.py) -/

/-- `GLOSY_PER_EMOCJE` (rezyser_glosu.py:34-43), insertion order preserved. -/
def GLOSY_PER_EMOCJE : List (String × String) :=
  [("inspiracja", "nova"), ("energia", "echo"), ("profesjonalizm", "onyx"),
   ("przyjazny", "nova"), ("dramatyczny", "fable"), ("spokojny", "shimmer"),
   ("autorytatywny", "onyx"), ("ciekawość", "alloy")]

/-- `GLOSY_PER_PLATORMA` (rezyser_glosu.py:45-49). -/
def GLOSY_PER_PLATORMA : List (String × String) :=
  [("tiktok", "nova"), ("youtube", "echo"), ("instagram", "shimmer")]

/-- `Konfiguracja.DOMYSLNY_GLOS` (konfiguracja.py:48). -/
def DOMYSLNY_GLOS : String := "nova"

/-- `wybierz_glos` (rezyser_glosu.py:52-63).  A `none` plan mirrors the empty
dict fallback; `headD` stands in for Python's `[0]` indexing, whose
IndexError on an empty platform list would surface as the gather-level
exception branch modelled separately in the step relation. -/
def wybierz_glos (plan : Option PlanTresci) : String :=
  let ton :=
    (match plan with
     | some p => p.ton_glosu
     | none => "energiczny").toLower
  let platforma :=
    (match plan with
     | some p => p.platforma_docelowa
     | none => ["tiktok"]).headD "tiktok"
  match GLOSY_PER_EMOCJE.find? (fun pg => ma_podciag pg.1.toList ton.toList) with
  | some pg => pg.2
  | none => (szukaj GLOSY_PER_PLATORMA platforma).getD DOMYSLNY_GLOS

/-- `generuj_audio_sceny` (rezyser_glosu.py:66-103): empty text short-circuits
to `False` before the TTS call; otherwise the call either succeeds (`True`)
or raises. -/
def generuj_audio_sceny (tekst : String) (api : Except String Unit) : Except String Bool :=
  if przytnij tekst = "" then Except.ok false
  else
    match api with
    | Except.ok _ => Except.ok true
    | Except.error e => Except.error e

/-- Per-scene synchronization segments (rezyser_glosu.py:188-200). -/
def segmenty_scen (sceny : List ScenariuszScena) : List SegmentAudio :=
  (sceny.foldl
    (fun (acc : List SegmentAudio × ℚ) scena =>
      let czas_sceny := ((slowa scena.tekst_narracji).length : ℚ) / 150 * 60
      (acc.1 ++ [{ numer := scena.numer
                   start := acc.2
                   koniec := acc.2 + czas_sceny
                   tekst := scena.tekst_narracji }],
       acc.2 + czas_sceny))
    ([], 0)).1

/-- `rezyser_glosu` (rezyser_glosu.py:106-231).  `tts` is the outcome of the
full-narration TTS call; the per-scene segment calls are gathered with
`return_exceptions=True` and their results are unused, so they need no
environment.  TTS cost is $15 per 1M characters plus a 30% segment
surcharge when any scene has narration. -/
def rezyser_glosu (stan : StanNEXUS) (tts : Except String Unit) : Aktualizacja :=
  match stan.scenariusz with
  | none =>
    { pusta with
      bledy := ["Reżyser Głosu: brak scenariusza"]
      krok_aktualny := some "blad_rezysera" }
  | some scenariusz =>
    let glos := wybierz_glos stan.plan_tresci
    let katalog_audio := "/tmp/nexus/" ++ stan.metadane.sesja_id ++ "/audio"
    let pelny_tekst := zlacz " "
      ((scenariusz.sceny.map (fun s => s.tekst_narracji)).filter (fun t => przytnij t ≠ ""))
    let liczba_znakow : ℚ := pelny_tekst.length
    let koszt_tts := liczba_znakow * 15 / 1000000
    match generuj_audio_sceny pelny_tekst tts with
    | Except.error e =>
      { pusta with
        bledy := ["Reżyser Głosu: " ++ e]
        krok_aktualny := some "blad_rezysera" }
    | Except.ok false =>
      { pusta with
        bledy := ["Reżyser Głosu: błąd generacji audio"]
        krok_aktualny := some "blad_rezysera" }
    | Except.ok true =>
      let czas_trwania := ((slowa pelny_tekst).length : ℚ) / 150 * 60
      let zadania := scenariusz.sceny.filter (fun s => przytnij s.tekst_narracji ≠ "")
      let koszt_tts :=
        if zadania.isEmpty then koszt_tts
        else koszt_tts + liczba_znakow * 0.3 * 15 / 1000000
      let audio : AudioWideo :=
        { sciezka_pliku := katalog_audio ++ "/narracja_pelna.mp3"
          czas_trwania := czas_trwania
          jezyk := "pl"
          glos := glos
          format := "mp3"
          transkrypcja := pelny_tekst
          segmenty := segmenty_scen scenariusz.sceny }
      { pusta with
        audio := some audio
        krok_aktualny := some "audio_gotowe"
        koszt_calkowity_usd := some (stan.koszt_calkowity_usd + koszt_tts) }

/-! ## Agent 4: producent_wizualny (src/backend/agenci/producent_wizualny.py) -/

/-- `STYL_DO_DALL_E` (producent_wizualny.py:36-43). -/
def STYL_DO_DALL_E : List (String × String) :=
  [("nowoczesny", "modern minimalist, clean lines, bright colors"),
   ("kinowy", "cinematic, dramatic lighting, film noir"),
   ("estetyczny", "aesthetic, warm tones, soft light, instagram style"),
   ("dynamiczny", "dynamic, energetic, bold colors, action-packed"),
   ("profesjonalny", "professional, corporate, clean, polished"),
   ("artystyczny", "artistic, creative, unique composition")]

/-- `EMOCJA_DO_WIZUALU` (producent_wizualny.py:45-52). -/
def EMOCJA_DO_WIZUALU : List (String × String) :=
  [("inspiracja", "uplifting, bright, hopeful atmosphere"),
   ("zaskoczenie", "unexpected angle, dramatic reveal"),
   ("napięcie", "suspenseful, moody lighting, tension"),
   ("radość", "joyful, colorful, energetic"),
   ("spokój", "calm, peaceful, serene"),
   ("ciekawość", "intriguing, mysterious, question-raising")]

/-- `zoptymalizuj_prompt` (producent_wizualny.py:55-77), including the
4000-character DALL-E limit. -/
def zoptymalizuj_prompt (opis_sceny : String) (styl_wizualny : String)
    (emocja : String) (marka : Marka) : String :=
  let styl_dall_e :=
    (szukaj STYL_DO_DALL_E ((przytnij ((styl_wizualny.splitOn ",").headD "")).toLower)).getD
      "professional, high quality, vibrant"
  let emocja_wizualna := (szukaj EMOCJA_DO_WIZUALU emocja.toLower).getD "engaging, dynamic"
  let poczatek_marki :=
    if marka.kolory ≠ "" then "Brand colors: " ++ marka.kolory ++ ". " else ""
  wez 4000
    (poczatek_marki ++ opis_sceny ++ ". " ++ styl_dall_e ++ ", " ++ emocja_wizualna ++
     ", ultra-HD quality, cinematic composition, professional photography, " ++
     "vertical 9:16 format, no text overlays, no watermarks, photorealistic render")

/-- Scene-index selection for more than `MAKS_OBRAZOW_NA_SCENA` scenes
(producent_wizualny.py:160-169): first two indices, the middle one, the last
two, then `sorted(set(...))[:maks]`. -/
def indeksy_scen (n : Nat) : List Nat :=
  let poczatkowe := List.range (min 2 n)
  let srodek := n / 2
  let ze_srodkiem := if srodek ∈ poczatkowe then poczatkowe else poczatkowe ++ [srodek]
  let pelne := ((List.range n).filter (fun i => n - 2 ≤ i)).foldl
    (fun acc i => if i ∈ acc then acc else acc ++ [i]) ze_srodkiem
  ((pelne.dedup).insertionSort (fun a b => a ≤ b)).take MAKS_OBRAZOW_NA_SCENA

/-- Batching `sceny_do_generacji[i:i+3]` (producent_wizualny.py:187-188):
the per-batch `asyncio.gather` preserves argument order, so the appended
successes follow declared scene order across batches. -/
def partie3 {α : Type} : List α → List (List α)
  | [] => []
  | [a] => [[a]]
  | [a, b] => [[a, b]]
  | a :: b :: c :: reszta => [a, b, c] :: partie3 reszta

/-- Zero-padded scene number, Python `f"{numer:02d}"` for the file name. -/
def dwucyfrowo (n : Nat) : String :=
  if n < 10 then "0" ++ toString n else toString n

/-- External outcomes of the Producent's DALL-E interactions:
`generuj_obraz_sceny` catches its own exceptions and returns a success flag
(producent_wizualny.py:94-123), indexed here by scene number (`0` is the
thumbnail). -/
structure SrodowiskoProducenta where
  obraz_ok : Nat → Bool

/-- `producent_wizualny` (producent_wizualny.py:126-252): selects at most
`MAKS_OBRAZOW_NA_SCENA` scenes, generates images in batches of 3, adds $0.04
per successful image and $0.04 for a successful thumbnail, and returns the
shared base cost plus its own delta. -/
def producent_wizualny (stan : StanNEXUS) (srod : SrodowiskoProducenta) : Aktualizacja :=
  match stan.scenariusz with
  | none =>
    { pusta with
      bledy := ["Producent Wizualny: brak scenariusza"]
      krok_aktualny := some "blad_producenta" }
  | some scenariusz =>
    let wszystkie_sceny := scenariusz.sceny
    let sceny_do_generacji :=
      if wszystkie_sceny.length ≤ MAKS_OBRAZOW_NA_SCENA then wszystkie_sceny
      else (indeksy_scen wszystkie_sceny.length).filterMap (fun i => wszystkie_sceny.get? i)
    let styl_wizualny :=
      match stan.plan_tresci with
      | some p => p.styl_wizualny
      | none => "nowoczesny"
    let katalog_obrazy := "/tmp/nexus/" ++ stan.metadane.sesja_id ++ "/obrazy"
    let obrazy : List ObrazSceny :=
      (partie3 sceny_do_generacji).foldl
        (fun acc partia =>
          acc ++ partia.filterMap (fun scena =>
            if srod.obraz_ok scena.numer then
              some { numer_sceny := scena.numer
                     sciezka_pliku := katalog_obrazy ++ "/scena_" ++ dwucyfrowo scena.numer ++ ".png"
                     prompt_uzyty := zoptymalizuj_prompt scena.opis_wizualny styl_wizualny
                       scena.emocja stan.marka
                     rozdzielczosc := "1024x1792"
                     format := "png" }
            else none))
        []
    let koszt_obrazy : ℚ := 0.040 * obrazy.length
    let koszt_obrazy :=
      if !wszystkie_sceny.isEmpty && srod.obraz_ok 0 then koszt_obrazy + 0.040
      else koszt_obrazy
    let wizualia : WizualiaWideo :=
      { obrazy := obrazy
        styl_wizualny := styl_wizualny
        paleta_kolorow := if stan.marka.kolory ≠ "" then stan.marka.kolory else "dynamiczne"
        liczba_obrazow := obrazy.length }
    { pusta with
      wizualia := some wizualia
      krok_aktualny := some "wizualia_gotowe"
      koszt_calkowity_usd := some (stan.koszt_calkowity_usd + koszt_obrazy) }

/-! ## Agent 5: recenzent_jakosci (src/backend/agenci/recenzent_jakosci.py) -/

/-- The raw `ocena_wiralnosci` sub-dict of the reviewer's JSON response. -/
structure DaneWiralnosci where
  wynik_nwv : Option Int
  wynik_haka : Option Int
  wynik_zatrzymania : Option Int
  wynik_udostepnialnosci : Option Int
  wynik_platformy : Option (List (String × Int))
  uzasadnienie : Option String
  wskazowki_optymalizacji : Option (List String)
deriving DecidableEq

/-- The parsed JSON response of the reviewer's LLM call. -/
structure DaneRecenzji where
  wynik_ogolny : Option Int
  wynik_haka : Option Int
  wynik_scenariusza : Option Int
  wynik_wizualny : Option Int
  wynik_audio : Option Int
  slabe_punkty : Option (List String)
  mocne_punkty : Option (List String)
  sugestie : Option (List String)
  ocena_wiralnosci : Option DaneWiralnosci
deriving DecidableEq

/-- The empty dict default of `dane.get("ocena_wiralnosci", {})`. -/
def pusteDaneWiralnosci : DaneWiralnosci :=
  { wynik_nwv := none
    wynik_haka := none
    wynik_zatrzymania := none
    wynik_udostepnialnosci := none
    wynik_platformy := none
    uzasadnienie := none
    wskazowki_optymalizacji := none }

/-- `oblicz_ocene_wiralnosci_z_wynikow` (recenzent_jakosci.py:113-134). -/
def oblicz_ocene_wiralnosci_z_wynikow (dane : DaneRecenzji) : OcenaWiralnosci :=
  let ow := dane.ocena_wiralnosci.getD pusteDaneWiralnosci
  let nwv := ow.wynik_nwv.getD (dane.wynik_ogolny.getD 60)
  let odznaka :=
    if 85 ≤ nwv then "🔥 Wysoki potencjał wiralny"
    else if 60 ≤ nwv then "✅ Dobry content"
    else "⚠️ Wymaga poprawy"
  { wynik_nwv := nwv
    wynik_haka := ow.wynik_haka.getD (dane.wynik_haka.getD 60)
    wynik_zatrzymania := ow.wynik_zatrzymania.getD 70
    wynik_udostepnialnosci := ow.wynik_udostepnialnosci.getD 65
    wynik_platformy := ow.wynik_platformy.getD [("tiktok", nwv), ("youtube", nwv - 5)]
    odznaka := odznaka
    uzasadnienie := ow.uzasadnienie.getD ""
    wskazowki_optymalizacji := ow.wskazowki_optymalizacji.getD [] }

/-- `recenzent_jakosci` (recenzent_jakosci.py:137-295).  Three paths:
incomplete inputs (fixed 65-point auto-approval, no error, iteration +1);
a successful `gpt-4o` review (`zatwierdzone := wynik_ogolny ≥ PROG_JAKOSCI`);
and the exception fallback (70-point auto-approval plus one non-blocking
error record).  Every path increments `iteracja` by exactly one. -/
def recenzent_jakosci (stan : StanNEXUS) (llm : WynikLLM DaneRecenzji) : Aktualizacja :=
  if !(stan.scenariusz.isSome && stan.audio.isSome && stan.wizualia.isSome) then
    { pusta with
      ocena_jakosci := some
        { wynik_ogolny := 65
          wynik_haka := 60
          wynik_scenariusza := 65
          wynik_wizualny := 60
          wynik_audio := 65
          slabe_punkty := ["Niekompletne dane projektu"]
          mocne_punkty := []
          sugestie := ["Uzupełnij wszystkie komponenty"]
          zatwierdzone := true }
      ocena_wiralnosci := some
        { wynik_nwv := 65
          wynik_haka := 60
          wynik_zatrzymania := 65
          wynik_udostepnialnosci := 60
          wynik_platformy := [("tiktok", 65)]
          odznaka := "✅ Dobry content"
          uzasadnienie := "Projekt zatwierdzony z minimalnymi danymi"
          wskazowki_optymalizacji := [] }
      krok_aktualny := some "recenzja_gotowa"
      iteracja := some (stan.iteracja + 1) }
  else
    match llm with
    | .odpowiedz dane uzycie =>
      let koszt := koszt_inteligentny uzycie
      let wynik_ogolny := dane.wynik_ogolny.getD 70
      let zatwierdzone := decide (PROG_JAKOSCI ≤ wynik_ogolny)
      let ocena : OcenaJakosci :=
        { wynik_ogolny := wynik_ogolny
          wynik_haka := dane.wynik_haka.getD 70
          wynik_scenariusza := dane.wynik_scenariusza.getD 70
          wynik_wizualny := dane.wynik_wizualny.getD 70
          wynik_audio := dane.wynik_audio.getD 70
          slabe_punkty := dane.slabe_punkty.getD []
          mocne_punkty := dane.mocne_punkty.getD []
          sugestie := dane.sugestie.getD []
          zatwierdzone := zatwierdzone }
      { pusta with
        ocena_jakosci := some ocena
        ocena_wiralnosci := some (oblicz_ocene_wiralnosci_z_wynikow dane)
        krok_aktualny := some (if zatwierdzone then "recenzja_gotowa" else "wymaga_poprawy")
        iteracja := some (stan.iteracja + 1)
        koszt_calkowity_usd := some (stan.koszt_calkowity_usd + koszt) }
    | .wyjatek e =>
      { pusta with
        ocena_jakosci := some
          { wynik_ogolny := 70
            wynik_haka := 65
            wynik_scenariusza := 70
            wynik_wizualny := 65
            wynik_audio := 70
            slabe_punkty := []
            mocne_punkty := []
            sugestie := []
            zatwierdzone := true }
        ocena_wiralnosci := some
          { wynik_nwv := 70
            wynik_haka := 65
            wynik_zatrzymania := 70
            wynik_udostepnialnosci := 65
            wynik_platformy := [("tiktok", 70)]
            odznaka := "✅ Dobry content"
            uzasadnienie := "Automatyczne zatwierdzenie (błąd oceny)"
            wskazowki_optymalizacji := [] }
        krok_aktualny := some "recenzja_gotowa"
        iteracja := some (stan.iteracja + 1)
        bledy := ["Recenzent (nieblokujący): " ++ e] }

/-! ## Node: kompozytor (src/backend/generacja/compositor.py:430-614) -/

/-- External outcomes of the Compositor's FFmpeg/file-system interactions. -/
structure SrodowiskoKompozytora where
  ffmpeg_dostepny : Bool
  plik_istnieje : String → Bool
  wideo_premium_ok : Bool
  wideo_fallback_ok : Bool
  rozmiar_mb : ℚ

/-- `kompozytor` (compositor.py:430-614): four error guards, otherwise a
`Wideo` record plus a `metadane` status update; it never touches `iteracja`
or the cost accumulator. -/
def kompozytor (stan : StanNEXUS) (srod : SrodowiskoKompozytora) : Aktualizacja :=
  if !srod.ffmpeg_dostepny then
    { pusta with
      bledy := ["Compositor: FFmpeg nie jest zainstalowany"]
      krok_aktualny := some "blad_compositora" }
  else
    match stan.wizualia with
    | none =>
      { pusta with
        bledy := ["Compositor: brak obrazów wizualnych"]
        krok_aktualny := some "blad_compositora" }
    | some wizualia =>
      if wizualia.obrazy.isEmpty then
        { pusta with
          bledy := ["Compositor: brak obrazów wizualnych"]
          krok_aktualny := some "blad_compositora" }
      else
        let katalog_wyjscia := "./dane/wideo/" ++ stan.metadane.sesja_id
        let obrazy_sciezki :=
          ((wizualia.obrazy.insertionSort (fun a b => a.numer_sceny ≤ b.numer_sceny)).map
            (fun obr => obr.sciezka_pliku)).filter srod.plik_istnieje
        if obrazy_sciezki.isEmpty then
          { pusta with
            bledy := ["Compositor: pliki obrazów niedostępne"]
            krok_aktualny := some "blad_compositora" }
        else
          let sukces := srod.wideo_premium_ok || srod.wideo_fallback_ok
          if !sukces then
            { pusta with
              bledy := ["Compositor: błąd FFmpeg przy generacji wideo"]
              krok_aktualny := some "blad_compositora" }
          else
            let calkowity_czas :=
              match stan.scenariusz with
              | some s => s.calkowity_czas
              | none => 60
            let sciezka_wideo := katalog_wyjscia ++ "/wideo_glowne.mp4"
            let sciezka_miniaturki := katalog_wyjscia ++ "/miniaturka.jpg"
            let wideo : Wideo :=
              { sciezka_pliku := sciezka_wideo
                miniatura_sciezka :=
                  if srod.plik_istnieje sciezka_miniaturki then sciezka_miniaturki else ""
                format := "mp4"
                rozdzielczosc := "1080x1920"
                czas_trwania := calkowity_czas
                rozmiar_mb := srod.rozmiar_mb
                wariant_tiktok := some sciezka_wideo
                wariant_youtube := some sciezka_wideo
                wariant_instagram := some sciezka_wideo }
            { pusta with
              wideo := some wideo
              krok_aktualny := some "wideo_gotowe"
              metadane := some { stan.metadane with
                status := "gotowe"
                compositor_wersja := "2.0" } }

/-! ## Node: producja_rownolegle (orkiestrator.py:41-69) -/

/-- One element of the `asyncio.gather(..., return_exceptions=True)` result
list: either a raised exception or the branch's returned update dict. -/
inductive WynikGalezi where
  | wyjatek (komunikat : String)
  | slownik (d : Aktualizacja)
deriving DecidableEq

/-- The inner dict merge of `producja_rownolegle` (orkiestrator.py:60-67):
`bledy` entries are extended, `koszt_calkowity_usd` values are SUMMED with
default 0, every other present key overwrites. -/
def scal_slownik (scalony : Aktualizacja) (wynik : Aktualizacja) : Aktualizacja :=
  { plan_tresci := nadpisz wynik.plan_tresci scalony.plan_tresci
    scenariusz := nadpisz wynik.scenariusz scalony.scenariusz
    audio := nadpisz wynik.audio scalony.audio
    wizualia := nadpisz wynik.wizualia scalony.wizualia
    ocena_jakosci := nadpisz wynik.ocena_jakosci scalony.ocena_jakosci
    ocena_wiralnosci := nadpisz wynik.ocena_wiralnosci scalony.ocena_wiralnosci
    wideo := nadpisz wynik.wideo scalony.wideo
    krok_aktualny := nadpisz wynik.krok_aktualny scalony.krok_aktualny
    iteracja := nadpisz wynik.iteracja scalony.iteracja
    bledy := scalony.bledy ++ wynik.bledy
    metadane := nadpisz wynik.metadane scalony.metadane
    koszt_calkowity_usd :=
      match wynik.koszt_calkowity_usd with
      | some w => some (scalony.koszt_calkowity_usd.getD 0 + w)
      | none => scalony.koszt_calkowity_usd
    czas_generacji_s := nadpisz wynik.czas_generacji_s scalony.czas_generacji_s }

/-- `producja_rownolegle` (orkiestrator.py:41-69): folds the gather results
in declared branch order into one merged update, turning a raised exception
into a single appended error string. -/
def producja_rownolegle (wyniki : List WynikGalezi) : Aktualizacja :=
  wyniki.foldl
    (fun scalony wynik =>
      match wynik with
      | WynikGalezi.wyjatek komunikat => { scalony with bledy := scalony.bledy ++ [komunikat] }
      | WynikGalezi.slownik d => scal_slownik scalony d)
    pusta

/-! ## Driver result assembly (orkiestrator.py:209-317) -/

/-- The dict returned by `OrkiestratorNEXUS.generuj_wideo`; `bledy := none`
means the key is absent from the returned dict. -/
structure WynikGeneracji where
  sesja_id : String
  status : String
  blad : Option String
  wideo : Option Wideo
  scenariusz : Option ScenariuszWideo
  audio : Option AudioWideo
  wizualia : Option WizualiaWideo
  ocena_jakosci : Option OcenaJakosci
  ocena_wiralnosci : Option OcenaWiralnosci
  plan_tresci : Option PlanTresci
  bledy : Option (List String)
  koszt_usd : ℚ
  czas_generacji_s : ℚ
  iteracje : Option Nat
deriving DecidableEq

/-- Success path of `generuj_wideo` (orkiestrator.py:292-306), built from the
final graph state; the `round(x, 4)` / `round(x, 1)` display rounding of
binary floats is not modelled (values are kept exact). -/
def generuj_wideo_sukces (sesja_id : String) (stan_wartosci : StanNEXUS)
    (czas_calkowity : ℚ) : WynikGeneracji :=
  { sesja_id := sesja_id
    status := if stan_wartosci.wideo.isSome then "sukces" else "czesciowy"
    blad := none
    wideo := stan_wartosci.wideo
    scenariusz := stan_wartosci.scenariusz
    audio := stan_wartosci.audio
    wizualia := stan_wartosci.wizualia
    ocena_jakosci := stan_wartosci.ocena_jakosci
    ocena_wiralnosci := stan_wartosci.ocena_wiralnosci
    plan_tresci := stan_wartosci.plan_tresci
    bledy := some stan_wartosci.bledy
    koszt_usd := stan_wartosci.koszt_calkowity_usd
    czas_generacji_s := czas_calkowity
    iteracje := some stan_wartosci.iteracja }

/-- Exception path of `generuj_wideo` (orkiestrator.py:308-317): the result
is built from the exception message alone — the accumulated state is not
consulted, `koszt_usd` is the literal `0.0`, and no `bledy` key is
returned. -/
def generuj_wideo_wyjatek (sesja_id : String) (blad : String)
    (czas_calkowity : ℚ) : WynikGeneracji :=
  { sesja_id := sesja_id
    status := "blad"
    blad := some blad
    wideo := none
    scenariusz := none
    audio := none
    wizualia := none
    ocena_jakosci := none
    ocena_wiralnosci := none
    plan_tresci := none
    bledy := none
    koszt_usd := 0
    czas_generacji_s := czas_calkowity
    iteracje := none }

/-! ## The LangGraph execution (zbuduj_graf_nexus, orkiestrator.py:129-182) -/

/-- The nodes of the compiled graph plus the `END` sentinel (`koniec`). -/
inductive Wezel where
  | strateg_tresci
  | pisarz_scenariuszy
  | produkcja_rownolegla
  | recenzent_jakosci
  | compositor
  | koniec_z_bledem
  | koniec
deriving DecidableEq

/-- A point of the execution: the node about to run and the current state. -/
structure Konfig where
  wezel : Wezel
  stan : StanNEXUS

/-- The conditional-edge mapping after `strateg_tresci`
(orkiestrator.py:150-157). -/
def celStrategii : CelPoStrategii → Wezel
  | CelPoStrategii.pisarz_scenariuszy => Wezel.pisarz_scenariuszy
  | CelPoStrategii.koniec_z_bledem => Wezel.koniec_z_bledem

/-- The conditional-edge mapping after `recenzent_jakosci`
(orkiestrator.py:166-174). -/
def celRecenzji : CelPoRecenzji → Wezel
  | CelPoRecenzji.compositor => Wezel.compositor
  | CelPoRecenzji.pisarz_scenariuszy => Wezel.pisarz_scenariuszy
  | CelPoRecenzji.koniec_z_bledem => Wezel.koniec_z_bledem

/-- Admissible audio-branch results at the gather: either a raised exception
(any message) or the dict returned by `rezyser_glosu`. -/
def MozliwaGalazAudio (stan : StanNEXUS) (w : WynikGalezi) : Prop :=
  (∃ komunikat, w = WynikGalezi.wyjatek komunikat) ∨
  ∃ tts, w = WynikGalezi.slownik (rezyser_glosu stan tts)

/-- Admissible visual-branch results at the gather: either a raised exception
(any message) or the dict returned by `producent_wizualny`. -/
def MozliwaGalazWizualna (stan : StanNEXUS) (w : WynikGalezi) : Prop :=
  (∃ komunikat, w = WynikGalezi.wyjatek komunikat) ∨
  ∃ srod, w = WynikGalezi.slownik (producent_wizualny stan srod)

/-- One engine step: run the current node (with an arbitrary external
environment), merge its update into the state through the `bledy`-appending
channel update, then follow the node's outgoing (conditional) edge computed
on the MERGED state.  Both branches of the parallel node receive the same
pre-merge snapshot. -/
inductive Krok : Konfig → Konfig → Prop where
  | strateg (s : StanNEXUS) (llm : WynikLLM DanePlanu) :
      Krok ⟨Wezel.strateg_tresci, s⟩
        ⟨celStrategii (routing_po_strategii (zastosuj s (strateg_tresci s llm))),
         zastosuj s (strateg_tresci s llm)⟩
  | pisarz (s : StanNEXUS) (llm : WynikLLM DaneScenariusza) :
      Krok ⟨Wezel.pisarz_scenariuszy, s⟩
        ⟨Wezel.produkcja_rownolegla, zastosuj s (pisarz_scenariuszy s llm)⟩
  | produkcja (s : StanNEXUS) (wA wV : WynikGalezi)
      (hA : MozliwaGalazAudio s wA) (hV : MozliwaGalazWizualna s wV) :
      Krok ⟨Wezel.produkcja_rownolegla, s⟩
        ⟨Wezel.recenzent_jakosci, zastosuj s (producja_rownolegle [wA, wV])⟩
  | recenzent (s : StanNEXUS) (llm : WynikLLM DaneRecenzji) :
      Krok ⟨Wezel.recenzent_jakosci, s⟩
        ⟨celRecenzji (routing_po_recenzji (zastosuj s (recenzent_jakosci s llm))),
         zastosuj s (recenzent_jakosci s llm)⟩
  | kompozycja (s : StanNEXUS) (srod : SrodowiskoKompozytora) :
      Krok ⟨Wezel.compositor, s⟩ ⟨Wezel.koniec, zastosuj s (kompozytor s srod)⟩
  | blad (s : StanNEXUS) :
      Krok ⟨Wezel.koniec_z_bledem, s⟩ ⟨Wezel.koniec, zastosuj s (koniec_z_bledem s)⟩

/-- The initial state built at `generuj_wideo` entry (orkiestrator.py:239-261);
`platforma or [...]` and `marka or {}` defaulting is applied to the list. -/
def stan_poczatkowy (brief : String) (marka : Marka) (kontekst_marki : String)
    (platforma : List String) (sesja_id : String) (czas_start : ℚ) : StanNEXUS :=
  { brief := brief
    marka := marka
    kontekst_marki := kontekst_marki
    platforma := if platforma.isEmpty then ["tiktok", "youtube"] else platforma
    plan_tresci := none
    scenariusz := none
    audio := none
    wizualia := none
    ocena_jakosci := none
    ocena_wiralnosci := none
    wideo := none
    krok_aktualny := "start"
    iteracja := 0
    bledy := []
    metadane :=
      { sesja_id := sesja_id
        status := "w_trakcie"
        czas_start := czas_start
        komunikat := ""
        compositor_wersja := "" }
    koszt_calkowity_usd := 0
    czas_generacji_s := 0 }

/-- The start configuration: `START → strateg_tresci` (orkiestrator.py:147). -/
def konfig_poczatkowa (brief : String) (marka : Marka) (kontekst_marki : String)
    (platforma : List String) (sesja_id : String) (czas_start : ℚ) : Konfig :=
  ⟨Wezel.strateg_tresci,
   stan_poczatkowy brief marka kontekst_marki platforma sesja_id czas_start⟩

/-- A configuration reachable from some start configuration. -/
def Osiagalna (c : Konfig) : Prop :=
  ∃ brief marka kontekst_marki platforma sesja_id czas_start,
    Relation.ReflTransGen Krok
      (konfig_poczatkowa brief marka kontekst_marki platforma sesja_id czas_start) c

/-! ## Helper predicates and concrete inputs used by the theorems -/

/-- The inductive invariant behind the retry bound: the counter never exceeds
the cap, and strictly below the cap whenever the control point still precedes
the review's increment. -/
def InwariantIteracji (c : Konfig) : Prop :=
  c.stan.iteracja ≤ MAKS_PONOWNYCH_PROB ∧
  ((c.wezel = Wezel.strateg_tresci ∨ c.wezel = Wezel.pisarz_scenariuszy ∨
    c.wezel = Wezel.produkcja_rownolegla ∨ c.wezel = Wezel.recenzent_jakosci) →
   c.stan.iteracja < MAKS_PONOWNYCH_PROB)

/-- An update dict carries none of the seven output fields. -/
def bezZmianWyjsc (u : Aktualizacja) : Prop :=
  u.plan_tresci = none ∧ u.scenariusz = none ∧ u.audio = none ∧ u.wizualia = none ∧
  u.ocena_jakosci = none ∧ u.ocena_wiralnosci = none ∧ u.wideo = none

/-- Error records contributed by one gather-result element. -/
def bledyGalezi : WynikGalezi → List String
  | WynikGalezi.wyjatek komunikat => [komunikat]
  | WynikGalezi.slownik d => d.bledy

/-- The `audio` output carried by one gather-result element. -/
def audioGalezi : WynikGalezi → Option AudioWideo
  | WynikGalezi.wyjatek _ => none
  | WynikGalezi.slownik d => d.audio

/-- The `wizualia` output carried by one gather-result element. -/
def wizualiaGalezi : WynikGalezi → Option WizualiaWideo
  | WynikGalezi.wyjatek _ => none
  | WynikGalezi.slownik d => d.wizualia

/-- A one-scene test script whose narration is the four characters `abcd`. -/
def scenaTest : ScenariuszScena :=
  { numer := 1
    czas_start := 0
    czas_koniec := 3
    opis_wizualny := "opis"
    tekst_narracji := "abcd"
    tekst_na_ekranie := "tekst"
    emocja := "zaskoczenie"
    tempo := "szybkie" }

/-- A concrete script value for test states. -/
def scenariuszTest : ScenariuszWideo :=
  { tytul := "Tytul"
    streszczenie := "Streszczenie"
    sceny := [scenaTest]
    hook_otwierajacy := "Hak"
    cta := "CTA"
    calkowity_czas := 3
    liczba_slow := 1
    wynik_zaangazowania := 0.8 }

/-- A concrete audio value for test states. -/
def audioTest : AudioWideo :=
  { sciezka_pliku := "/tmp/nexus/sesja/audio/narracja_pelna.mp3"
    czas_trwania := 2
    jezyk := "pl"
    glos := "nova"
    format := "mp3"
    transkrypcja := "abcd"
    segmenty := [] }

/-- A concrete visuals value for test states. -/
def wizualiaTest : WizualiaWideo :=
  { obrazy := [{ numer_sceny := 1
                 sciezka_pliku := "/tmp/nexus/sesja/obrazy/scena_01.png"
                 prompt_uzyty := "prompt"
                 rozdzielczosc := "1024x1792"
                 format := "png" }]
    styl_wizualny := "nowoczesny"
    paleta_kolorow := "dynamiczne"
    liczba_obrazow := 1 }

/-- An approved review with score 75. -/
def ocenaZatwierdzona : OcenaJakosci :=
  { wynik_ogolny := 75
    wynik_haka := 70
    wynik_scenariusza := 70
    wynik_wizualny := 70
    wynik_audio := 70
    slabe_punkty := []
    mocne_punkty := []
    sugestie := []
    zatwierdzone := true }

/-- The fresh state of a concrete session. -/
def stanBazowy : StanNEXUS := stan_poczatkowy "brief" ⟨""⟩ "" [] "sesja" 0

/-- A state with all three review inputs present. -/
def stanKompletny : StanNEXUS :=
  { stanBazowy with
    scenariusz := some scenariuszTest
    audio := some audioTest
    wizualia := some wizualiaTest }

/-- The same complete state after two quality-gate passes. -/
def stanKompletny2 : StanNEXUS := { stanKompletny with iteracja := 2 }

/-- A state at the retry cap whose review is approved. -/
def stanC1 : StanNEXUS :=
  { stanBazowy with ocena_jakosci := some ocenaZatwierdzona, iteracja := 3 }

/-- A state at the retry cap with no review recorded. -/
def stanC1b : StanNEXUS := { stanBazowy with iteracja := 3 }

/-- A state entering the parallel node with an accumulated base cost of 0.1
USD and the test script. -/
def stanC2 : StanNEXUS :=
  { stanBazowy with
    scenariusz := some scenariuszTest
    koszt_calkowity_usd := 1/10 }

/-- A state with accumulated cost 0.25 USD and one recorded error. -/
def stanC8 : StanNEXUS :=
  { stanBazowy with
    koszt_calkowity_usd := 1/4
    bledy := ["Pisarz Scenariuszy: boom"] }

/-- A producer environment in which every DALL-E call succeeds. -/
def srodProducentaOK : SrodowiskoProducenta := ⟨fun _ => true⟩

/-- A producer environment in which every DALL-E call fails. -/
def srodProducentaBlad : SrodowiskoProducenta := ⟨fun _ => false⟩

/-- A concrete content plan for test states. -/
def planTest : PlanTresci :=
  { tytul := "Tytul"
    temat := "temat"
    platforma_docelowa := ["tiktok"]
    dlugosc_sekund := 60
    typ_haka := "szok_humor"
    hak_wizualny := ""
    hak_tekstowy := ""
    hak_werbalny := ""
    luk_emocjonalny := []
    styl_wizualny := "nowoczesny"
    ton_glosu := "energiczny"
    hashtagi := []
    przewidywane_zaangazowanie := 0.8 }

/-- A state in which the strategist already produced a plan. -/
def stanZPlanem : StanNEXUS := { stanBazowy with plan_tresci := some planTest }

/-- A parsed review response scoring 90. -/
def dane90 : DaneRecenzji :=
  { wynik_ogolny := some 90
    wynik_haka := none
    wynik_scenariusza := none
    wynik_wizualny := none
    wynik_audio := none
    slabe_punkty := none
    mocne_punkty := none
    sugestie := none
    ocena_wiralnosci := none }

/-- A parsed review response scoring 40. -/
def dane40 : DaneRecenzji := { dane90 with wynik_ogolny := some 40 }

/-- A concrete token usage. -/
def uzycieTest : Uzycie := ⟨100, 50⟩

/-- The audio gather element produced by the voice director on the fresh
state (which lacks a script, so the branch fails with one error). -/
def wAprzyklad : WynikGalezi :=
  WynikGalezi.slownik (rezyser_glosu stanBazowy (Except.ok ()))

/-- The visual gather element produced by the visual producer on the fresh
state (which lacks a script, so the branch fails with one error). -/
def wVprzyklad : WynikGalezi :=
  WynikGalezi.slownik (producent_wizualny stanBazowy srodProducentaOK)

/-- The start configuration of the concrete session. -/
def konfigBazowa : Konfig := ⟨Wezel.strateg_tresci, stanBazowy⟩

/-- The configuration after a strategist step whose LLM call raised. -/
def konfigPoStrategu : Konfig :=
  ⟨celStrategii (routing_po_strategii
      (zastosuj stanBazowy (strateg_tresci stanBazowy (WynikLLM.wyjatek "x")))),
   zastosuj stanBazowy (strateg_tresci stanBazowy (WynikLLM.wyjatek "x"))⟩

/-- A configuration entering the quality reviewer. -/
def konfigRecenzent : Konfig := ⟨Wezel.recenzent_jakosci, stanBazowy⟩

/-- The configuration after a reviewer step whose LLM call raised. -/
def konfigPoRecenzencie : Konfig :=
  ⟨celRecenzji (routing_po_recenzji
      (zastosuj stanBazowy (recenzent_jakosci stanBazowy (WynikLLM.wyjatek "x")))),
   zastosuj stanBazowy (recenzent_jakosci stanBazowy (WynikLLM.wyjatek "x"))⟩

/-! ## Helper lemmas -/

/-- Overwriting with an absent key keeps the old value. -/
theorem nadpisz_none_lewo {α : Type} (x : Option α) : nadpisz none x = x := rfl

/-- Overwriting an absent old value yields the new key verbatim. -/
theorem nadpisz_none_prawo {α : Type} (x : Option α) : nadpisz x none = x := by
  cases x <;> rfl

/-- The channel update resolves `iteracja` by overwrite-if-present. -/
theorem zastosuj_iteracja (s : StanNEXUS) (u : Aktualizacja) :
    (zastosuj s u).iteracja = u.iteracja.getD s.iteracja := rfl

/-- The channel update appends the new error entries to the old list. -/
theorem zastosuj_bledy (s : StanNEXUS) (u : Aktualizacja) :
    (zastosuj s u).bledy = s.bledy ++ u.bledy := rfl

/-- The strategist's update never carries the `iteracja` key. -/
theorem strateg_iteracja (s : StanNEXUS) (llm : WynikLLM DanePlanu) :
    (strateg_tresci s llm).iteracja = none := by
  cases llm <;> rfl

/-- The scriptwriter's update never carries the `iteracja` key. -/
theorem pisarz_iteracja (s : StanNEXUS) (llm : WynikLLM DaneScenariusza) :
    (pisarz_scenariuszy s llm).iteracja = none := by
  cases hp : s.plan_tresci <;> cases llm <;> simp [pisarz_scenariuszy, hp, pusta]

/-- The voice director's update carries no `iteracja` key, none of the other
agents' output fields, and either a produced `audio` with no error or no
`audio` with exactly one error record. -/
theorem rezyser_pola (s : StanNEXUS) (tts : Except String Unit) :
    (rezyser_glosu s tts).plan_tresci = none ∧
    (rezyser_glosu s tts).scenariusz = none ∧
    (rezyser_glosu s tts).wizualia = none ∧
    (rezyser_glosu s tts).ocena_jakosci = none ∧
    (rezyser_glosu s tts).ocena_wiralnosci = none ∧
    (rezyser_glosu s tts).wideo = none ∧
    (rezyser_glosu s tts).iteracja = none ∧
    ((rezyser_glosu s tts).audio.isSome = true → (rezyser_glosu s tts).bledy = []) ∧
    ((rezyser_glosu s tts).audio = none → (rezyser_glosu s tts).bledy.length = 1) := by
  rcases hsc : s.scenariusz with _ | sc <;> simp only [rezyser_glosu, hsc]
  · simp [pusta]
  · split <;> simp [pusta]

/-- The visual producer's update carries no `iteracja` key, none of the other
agents' output fields, and either produced `wizualia` with no error or no
`wizualia` with exactly one error record. -/
theorem producent_pola (s : StanNEXUS) (srod : SrodowiskoProducenta) :
    (producent_wizualny s srod).plan_tresci = none ∧
    (producent_wizualny s srod).scenariusz = none ∧
    (producent_wizualny s srod).audio = none ∧
    (producent_wizualny s srod).ocena_jakosci = none ∧
    (producent_wizualny s srod).ocena_wiralnosci = none ∧
    (producent_wizualny s srod).wideo = none ∧
    (producent_wizualny s srod).iteracja = none ∧
    ((producent_wizualny s srod).wizualia.isSome = true →
       (producent_wizualny s srod).bledy = []) ∧
    ((producent_wizualny s srod).wizualia = none →
       (producent_wizualny s srod).bledy.length = 1) := by
  rcases hsc : s.scenariusz with _ | sc <;> simp [producent_wizualny, hsc, pusta]

/-- The reviewer's update always carries `iteracja := stan.iteracja + 1`. -/
theorem recenzent_iteracja (s : StanNEXUS) (llm : WynikLLM DaneRecenzji) :
    (recenzent_jakosci s llm).iteracja = some (s.iteracja + 1) := by
  unfold recenzent_jakosci
  split
  · rfl
  · cases llm <;> rfl

/-- The compositor's update never carries the `iteracja` key. -/
theorem kompozytor_iteracja (s : StanNEXUS) (srod : SrodowiskoKompozytora) :
    (kompozytor s srod).iteracja = none := by
  simp only [kompozytor]
  repeat' split
  all_goals simp [pusta]

/-- The failure node's update never carries the `iteracja` key. -/
theorem koniec_z_bledem_iteracja (s : StanNEXUS) :
    (koniec_z_bledem s).iteracja = none := rfl

/-- A concrete strategist step of the engine (its LLM call raised). -/
theorem krok_strateg_przyklad : Krok konfigBazowa konfigPoStrategu :=
  Krok.strateg stanBazowy (WynikLLM.wyjatek "x")

/-- A concrete reviewer step of the engine (its LLM call raised). -/
theorem krok_recenzent_przyklad : Krok konfigRecenzent konfigPoRecenzencie :=
  Krok.recenzent stanBazowy (WynikLLM.wyjatek "x")

/-! ## Claim theorems -/

/-- C1, counterexample: at the retry cap (`iteracja = MAKS_PONOWNYCH_PROB`)
with an approved review, `routing_po_recenzji` returns "compositor", not the
give-up label — the code checks approval before the iteration cap, so the
claimed unconditional give-up is false. -/
theorem C1_kontrprzyklad :
    stanC1.iteracja = MAKS_PONOWNYCH_PROB ∧
    stanC1.ocena_jakosci.map OcenaJakosci.zatwierdzone = some true ∧
    routing_po_recenzji stanC1 = CelPoRecenzji.compositor ∧
    routing_po_recenzji stanC1 ≠ CelPoRecenzji.koniec_z_bledem := by
  refine ⟨rfl, rfl, rfl, ?_⟩
  decide

/-- C1, amended: once the iteration counter has reached
`MAKS_PONOWNYCH_PROB`, the post-review router returns "koniec_z_bledem"
provided the review is absent or not approved; an approved review takes
precedence over the cap and routes to "compositor" instead. -/
theorem C1_poprawione (stan : StanNEXUS)
    (h : MAKS_PONOWNYCH_PROB ≤ stan.iteracja)
    (hz : stan.ocena_jakosci.map OcenaJakosci.zatwierdzone ≠ some true) :
    routing_po_recenzji stan = CelPoRecenzji.koniec_z_bledem := by
  unfold routing_po_recenzji
  rcases hoc : stan.ocena_jakosci with _ | ocena
  · simp [hoc, h]
  · have hb : ocena.zatwierdzone = false := by
      rcases Bool.eq_false_or_eq_true ocena.zatwierdzone with hb | hb
      · exact absurd (by simp [hoc, hb]) hz
      · exact hb
    simp [hoc, hb, h]

/-- C1, witness: a state at the cap with no recorded review routes to the
give-up label. -/
theorem C1_poprawione_swiadek :
    MAKS_PONOWNYCH_PROB ≤ stanC1b.iteracja ∧
    stanC1b.ocena_jakosci.map OcenaJakosci.zatwierdzone ≠ some true ∧
    routing_po_recenzji stanC1b = CelPoRecenzji.koniec_z_bledem :=
  ⟨by decide, by decide, C1_poprawione stanC1b (by decide) (by decide)⟩

/-- C6: whenever `plan_tresci` is absent, the post-strategy router returns
"koniec_z_bledem", and the engine step out of the strategist node leaves the
iteration counter unchanged (no retry is consumed). -/
theorem C6_routing_po_strategii :
    (∀ stan : StanNEXUS, stan.plan_tresci = none →
       routing_po_strategii stan = CelPoStrategii.koniec_z_bledem) ∧
    (∀ (s : StanNEXUS) (c' : Konfig), Krok ⟨Wezel.strateg_tresci, s⟩ c' →
       c'.stan.plan_tresci = none →
       c'.wezel = Wezel.koniec_z_bledem ∧ c'.stan.iteracja = s.iteracja) := by
  constructor
  · intro stan h
    unfold routing_po_strategii
    rw [h]
  · intro s c' hk hplan
    cases hk with
    | strateg _ llm =>
      constructor
      · show celStrategii (routing_po_strategii _) = _
        unfold routing_po_strategii
        rw [show (zastosuj s (strateg_tresci s llm)).plan_tresci = none from hplan]
        rfl
      · show (zastosuj s (strateg_tresci s llm)).iteracja = s.iteracja
        simp [zastosuj_iteracja, strateg_iteracja]

/-- C6, witness: a concrete strategist step whose LLM call raised leaves the
plan absent, routes to "koniec_z_bledem" and keeps `iteracja = 0`. -/
theorem C6_swiadek :
    konfigPoStrategu.stan.plan_tresci = none ∧
    konfigPoStrategu.wezel = Wezel.koniec_z_bledem ∧
    konfigPoStrategu.stan.iteracja = stanBazowy.iteracja := by
  refine ⟨rfl, ?_, ?_⟩
  · exact (C6_routing_po_strategii.2 stanBazowy konfigPoStrategu krok_strateg_przyklad rfl).1
  · exact (C6_routing_po_strategii.2 stanBazowy konfigPoStrategu krok_strateg_przyklad rfl).2

/-- C8: the driver's exception path builds its result from the exception
alone — it reports `koszt_usd = 0.0` and omits the `bledy` key even for a
session whose state (here `stanC8`) holds accumulated cost 0.25 USD and one
recorded error, while the success path preserves both. -/
theorem C8_wyjatek_gubi_koszt :
    stanC8.koszt_calkowity_usd = 1/4 ∧
    stanC8.bledy = ["Pisarz Scenariuszy: boom"] ∧
    (generuj_wideo_wyjatek "abc" "Krytyczny błąd" 2).koszt_usd = 0 ∧
    (generuj_wideo_wyjatek "abc" "Krytyczny błąd" 2).bledy = none ∧
    (generuj_wideo_sukces "abc" stanC8 2).koszt_usd = stanC8.koszt_calkowity_usd ∧
    (generuj_wideo_sukces "abc" stanC8 2).bledy = some stanC8.bledy :=
  ⟨rfl, rfl, rfl, rfl, rfl, rfl⟩

/-- C10: with any of the three review inputs absent, the reviewer returns a
fixed 65-point approved review, records no error, increments `iteracja`, and
the subsequent router sends the session to "compositor". -/
theorem C10_recenzja_niekompletna (stan : StanNEXUS) (llm : WynikLLM DaneRecenzji)
    (h : stan.scenariusz = none ∨ stan.audio = none ∨ stan.wizualia = none) :
    (recenzent_jakosci stan llm).ocena_jakosci.map OcenaJakosci.wynik_ogolny = some 65 ∧
    (recenzent_jakosci stan llm).ocena_jakosci.map OcenaJakosci.zatwierdzone = some true ∧
    (recenzent_jakosci stan llm).bledy = [] ∧
    (recenzent_jakosci stan llm).iteracja = some (stan.iteracja + 1) ∧
    routing_po_recenzji (zastosuj stan (recenzent_jakosci stan llm))
      = CelPoRecenzji.compositor := by
  have hguard : (stan.scenariusz.isSome && stan.audio.isSome && stan.wizualia.isSome) = false := by
    rcases h with h | h | h <;> simp [h]
  refine ⟨?_, ?_, ?_, ?_, ?_⟩ <;>
    simp [recenzent_jakosci, hguard, routing_po_recenzji, zastosuj, nadpisz, pusta]

/-- C10, witness: the fresh state lacks all three inputs; the reviewer
auto-approves with 65 and the router picks "compositor". -/
theorem C10_swiadek :
    (recenzent_jakosci stanBazowy (WynikLLM.wyjatek "x")).ocena_jakosci.map
      OcenaJakosci.wynik_ogolny = some 65 ∧
    (recenzent_jakosci stanBazowy (WynikLLM.wyjatek "x")).ocena_jakosci.map
      OcenaJakosci.zatwierdzone = some true ∧
    (recenzent_jakosci stanBazowy (WynikLLM.wyjatek "x")).bledy = [] ∧
    (recenzent_jakosci stanBazowy (WynikLLM.wyjatek "x")).iteracja
      = some (stanBazowy.iteracja + 1) ∧
    routing_po_recenzji
      (zastosuj stanBazowy (recenzent_jakosci stanBazowy (WynikLLM.wyjatek "x")))
      = CelPoRecenzji.compositor :=
  C10_recenzja_niekompletna stanBazowy (WynikLLM.wyjatek "x") (Or.inl rfl)

/-- C4, counterexample: when the reviewer's LLM call raises with complete
inputs, the exception handler does NOT make zero output changes — it sets
`ocena_jakosci` and `ocena_wiralnosci` (an approved fallback review) while
recording its one error. -/
theorem C4_kontrprzyklad :
    (recenzent_jakosci stanKompletny (WynikLLM.wyjatek "awaria")).ocena_jakosci.isSome
      = true ∧
    (recenzent_jakosci stanKompletny (WynikLLM.wyjatek "awaria")).ocena_wiralnosci.isSome
      = true ∧
    (recenzent_jakosci stanKompletny (WynikLLM.wyjatek "awaria")).ocena_jakosci.map
      OcenaJakosci.zatwierdzone = some true ∧
    (recenzent_jakosci stanKompletny (WynikLLM.wyjatek "awaria")).bledy
      = ["Recenzent (nieblokujący): awaria"] :=
  ⟨rfl, rfl, rfl, rfl⟩

/-- C4, amended: exceptions raised inside the strategist, scriptwriter,
voice director and quality reviewer are caught at the step boundary and
converted into a non-crashing update carrying exactly one error record
naming the step; for the first three the update makes zero output changes,
while the reviewer's handler additionally sets `ocena_jakosci` and
`ocena_wiralnosci` (an approved fallback) and increments `iteracja`.  The
visual producer differs: it catches its DALL-E failures internally
(producent_wizualny.py:121-123, 204-207) and merely skips the failed images,
so with a script present its update records zero error records and still
sets `wizualia` — for every environment, including one where every image
generation fails. -/
theorem C4_poprawione :
    (∀ (s : StanNEXUS) (e : String),
        (strateg_tresci s (WynikLLM.wyjatek e)).bledy = ["Strateg Treści: " ++ e] ∧
        bezZmianWyjsc (strateg_tresci s (WynikLLM.wyjatek e))) ∧
    (∀ (s : StanNEXUS) (e : String), s.plan_tresci.isSome = true →
        (pisarz_scenariuszy s (WynikLLM.wyjatek e)).bledy = ["Pisarz Scenariuszy: " ++ e] ∧
        bezZmianWyjsc (pisarz_scenariuszy s (WynikLLM.wyjatek e))) ∧
    (∀ (s : StanNEXUS) (e : String), s.scenariusz.isSome = true →
        ((rezyser_glosu s (Except.error e)).bledy = ["Reżyser Głosu: " ++ e] ∨
         (rezyser_glosu s (Except.error e)).bledy = ["Reżyser Głosu: błąd generacji audio"]) ∧
        bezZmianWyjsc (rezyser_glosu s (Except.error e))) ∧
    (∀ (s : StanNEXUS) (e : String),
        s.scenariusz.isSome = true → s.audio.isSome = true → s.wizualia.isSome = true →
        (recenzent_jakosci s (WynikLLM.wyjatek e)).bledy
          = ["Recenzent (nieblokujący): " ++ e] ∧
        (recenzent_jakosci s (WynikLLM.wyjatek e)).ocena_jakosci.isSome = true ∧
        (recenzent_jakosci s (WynikLLM.wyjatek e)).ocena_wiralnosci.isSome = true ∧
        (recenzent_jakosci s (WynikLLM.wyjatek e)).iteracja = some (s.iteracja + 1)) ∧
    (∀ (s : StanNEXUS) (srod : SrodowiskoProducenta), s.scenariusz.isSome = true →
        (producent_wizualny s srod).bledy = [] ∧
        (producent_wizualny s srod).wizualia.isSome = true) := by
  refine ⟨?_, ?_, ?_, ?_, ?_⟩
  · intro s e
    exact ⟨rfl, by simp [strateg_tresci, bezZmianWyjsc, pusta]⟩
  · intro s e hp
    rcases hpl : s.plan_tresci with _ | plan
    · rw [hpl] at hp; simp at hp
    · simp [pisarz_scenariuszy, hpl, bezZmianWyjsc, pusta]
  · intro s e hs
    rcases hsc : s.scenariusz with _ | sc
    · rw [hsc] at hs; simp at hs
    · simp only [rezyser_glosu, hsc]
      split
      · rename_i e' heq
        unfold generuj_audio_sceny at heq
        split at heq
        · simp at heq
        · cases heq
          exact ⟨Or.inl rfl, by simp [bezZmianWyjsc, pusta]⟩
      · exact ⟨Or.inr rfl, by simp [bezZmianWyjsc, pusta]⟩
      · rename_i heq
        unfold generuj_audio_sceny at heq
        split at heq <;> simp at heq
  · intro s e hs ha hw
    simp [recenzent_jakosci, hs, ha, hw, pusta]
  · intro s srod hs
    rcases hsc : s.scenariusz with _ | sc
    · rw [hsc] at hs; simp at hs
    · simp [producent_wizualny, hsc, pusta]

/-- C4, witness: the amended statement exercised at concrete inputs — the
strategist on the fresh state, the reviewer on the complete state, and the
visual producer on a state with a script under an environment in which every
DALL-E call fails (still zero error records). -/
theorem C4_poprawione_swiadek :
    ((strateg_tresci stanBazowy (WynikLLM.wyjatek "boom")).bledy
        = ["Strateg Treści: boom"] ∧
      bezZmianWyjsc (strateg_tresci stanBazowy (WynikLLM.wyjatek "boom"))) ∧
    ((recenzent_jakosci stanKompletny (WynikLLM.wyjatek "boom")).bledy
        = ["Recenzent (nieblokujący): boom"] ∧
      (recenzent_jakosci stanKompletny (WynikLLM.wyjatek "boom")).ocena_jakosci.isSome
        = true ∧
      (recenzent_jakosci stanKompletny (WynikLLM.wyjatek "boom")).ocena_wiralnosci.isSome
        = true ∧
      (recenzent_jakosci stanKompletny (WynikLLM.wyjatek "boom")).iteracja
        = some (stanKompletny.iteracja + 1)) ∧
    ((producent_wizualny stanC2 srodProducentaBlad).bledy = [] ∧
      (producent_wizualny stanC2 srodProducentaBlad).wizualia.isSome = true) :=
  ⟨C4_poprawione.1 stanBazowy "boom",
   C4_poprawione.2.2.2.1 stanKompletny "boom" rfl rfl rfl,
   C4_poprawione.2.2.2.2 stanC2 srodProducentaBlad rfl⟩

/-- Helper: the merged parallel update never carries the `iteracja` key. -/
theorem produkcja_iteracja {s : StanNEXUS} {wA wV : WynikGalezi}
    (hA : MozliwaGalazAudio s wA) (hV : MozliwaGalazWizualna s wV) :
    (producja_rownolegle [wA, wV]).iteracja = none := by
  rcases hA with ⟨kA, rfl⟩ | ⟨tts, rfl⟩ <;> rcases hV with ⟨kV, rfl⟩ | ⟨srod, rfl⟩
  · simp [producja_rownolegle, pusta]
  · obtain ⟨_, _, _, _, _, _, p7, _, _⟩ := producent_pola s srod
    simp [producja_rownolegle, scal_slownik, nadpisz, pusta, p7]
  · obtain ⟨_, _, _, _, _, _, r7, _, _⟩ := rezyser_pola s tts
    simp [producja_rownolegle, scal_slownik, nadpisz, pusta, r7]
  · obtain ⟨_, _, _, _, _, _, r7, _, _⟩ := rezyser_pola s tts
    obtain ⟨_, _, _, _, _, _, p7, _, _⟩ := producent_pola s srod
    simp [producja_rownolegle, scal_slownik, nadpisz, pusta, r7, p7]

/-- Helper: the post-review router returns the retry label only strictly
below the iteration cap. -/
theorem routing_pisarz_ogranicza (st : StanNEXUS)
    (h : routing_po_recenzji st = CelPoRecenzji.pisarz_scenariuszy) :
    st.iteracja < MAKS_PONOWNYCH_PROB := by
  simp only [routing_po_recenzji] at h
  split at h
  · simp at h
  · split at h
    · simp at h
    · rename_i hnle
      omega

/-- Helper: the retry invariant is preserved by every engine step. -/
theorem inwariant_zachowany {c c' : Konfig} (hk : Krok c c')
    (h : InwariantIteracji c) : InwariantIteracji c' := by
  cases hk with
  | strateg s llm =>
    have hlt : s.iteracja < MAKS_PONOWNYCH_PROB := h.2 (Or.inl rfl)
    have hit : (zastosuj s (strateg_tresci s llm)).iteracja = s.iteracja := by
      simp [zastosuj_iteracja, strateg_iteracja]
    exact ⟨by rw [show (⟨celStrategii (routing_po_strategii (zastosuj s (strateg_tresci s llm))),
        zastosuj s (strateg_tresci s llm)⟩ : Konfig).stan.iteracja
        = (zastosuj s (strateg_tresci s llm)).iteracja from rfl, hit]; omega,
      fun _ => by rw [show (⟨celStrategii (routing_po_strategii
        (zastosuj s (strateg_tresci s llm))), zastosuj s (strateg_tresci s llm)⟩ :
        Konfig).stan.iteracja = (zastosuj s (strateg_tresci s llm)).iteracja from rfl, hit]; omega⟩
  | pisarz s llm =>
    have hlt : s.iteracja < MAKS_PONOWNYCH_PROB := h.2 (Or.inr (Or.inl rfl))
    have hit : (zastosuj s (pisarz_scenariuszy s llm)).iteracja = s.iteracja := by
      simp [zastosuj_iteracja, pisarz_iteracja]
    exact ⟨by simp only [hit]; omega, fun _ => by simp only [hit]; omega⟩
  | produkcja s wA wV hA hV =>
    have hlt : s.iteracja < MAKS_PONOWNYCH_PROB := h.2 (Or.inr (Or.inr (Or.inl rfl)))
    have hit : (zastosuj s (producja_rownolegle [wA, wV])).iteracja = s.iteracja := by
      simp [zastosuj_iteracja, produkcja_iteracja hA hV]
    exact ⟨by simp only [hit]; omega, fun _ => by simp only [hit]; omega⟩
  | recenzent s llm =>
    have hlt : s.iteracja < MAKS_PONOWNYCH_PROB := h.2 (Or.inr (Or.inr (Or.inr rfl)))
    have hit : (zastosuj s (recenzent_jakosci s llm)).iteracja = s.iteracja + 1 := by
      simp [zastosuj_iteracja, recenzent_iteracja]
    constructor
    · simp only [hit]
      omega
    · intro hmem
      rcases hr : routing_po_recenzji (zastosuj s (recenzent_jakosci s llm)) with _ | _ | _
      · rw [hr] at hmem
        simp [celRecenzji] at hmem
      · have hiter := routing_pisarz_ogranicza _ hr
        exact hiter
      · rw [hr] at hmem
        simp [celRecenzji] at hmem
  | kompozycja s srod =>
    have hit : (zastosuj s (kompozytor s srod)).iteracja = s.iteracja := by
      simp [zastosuj_iteracja, kompozytor_iteracja]
    constructor
    · simp only [hit]
      exact h.1
    · intro hmem
      simp at hmem
  | blad s =>
    have hit : (zastosuj s (koniec_z_bledem s)).iteracja = s.iteracja := by
      simp [zastosuj_iteracja, koniec_z_bledem_iteracja]
    constructor
    · simp only [hit]
      exact h.1
    · intro hmem
      simp at hmem

/-- Helper: the retry invariant holds at every start configuration. -/
theorem inwariant_poczatkowy (b : String) (m : Marka) (k : String) (p : List String)
    (se : String) (cz : ℚ) : InwariantIteracji (konfig_poczatkowa b m k p se cz) :=
  ⟨by simp [konfig_poczatkowa, stan_poczatkowy, MAKS_PONOWNYCH_PROB],
   fun _ => by simp [konfig_poczatkowa, stan_poczatkowy, MAKS_PONOWNYCH_PROB]⟩

/-- Helper: every reachable configuration satisfies the retry invariant. -/
theorem osiagalna_inwariant {c : Konfig} (h : Osiagalna c) : InwariantIteracji c := by
  obtain ⟨b, m, k, p, se, cz, hr⟩ := h
  induction hr with
  | refl => exact inwariant_poczatkowy b m k p se cz
  | tail _ hk ih => exact inwariant_zachowany hk ih

/-- C7: along every execution from the initial state, the iteration counter
stays within `0 ≤ iteracja ≤ MAKS_PONOWNYCH_PROB` (the lower bound holds by
its `Nat` type), it never decreases across a step, only the quality-review
node changes it, and that node increments it by exactly one per pass. -/
theorem C7_inwariant_iteracji :
    (∀ c : Konfig, Osiagalna c → c.stan.iteracja ≤ MAKS_PONOWNYCH_PROB) ∧
    (∀ c c' : Konfig, Krok c c' → c.stan.iteracja ≤ c'.stan.iteracja) ∧
    (∀ c c' : Konfig, Krok c c' → c.wezel ≠ Wezel.recenzent_jakosci →
       c'.stan.iteracja = c.stan.iteracja) ∧
    (∀ c c' : Konfig, Krok c c' → c.wezel = Wezel.recenzent_jakosci →
       c'.stan.iteracja = c.stan.iteracja + 1) := by
  refine ⟨?_, ?_, ?_, ?_⟩
  · intro c hc
    exact (osiagalna_inwariant hc).1
  · intro c c' hk
    cases hk with
    | strateg s llm => simp [zastosuj_iteracja, strateg_iteracja]
    | pisarz s llm => simp [zastosuj_iteracja, pisarz_iteracja]
    | produkcja s wA wV hA hV => simp [zastosuj_iteracja, produkcja_iteracja hA hV]
    | recenzent s llm => simp [zastosuj_iteracja, recenzent_iteracja]
    | kompozycja s srod => simp [zastosuj_iteracja, kompozytor_iteracja]
    | blad s => simp [zastosuj_iteracja, koniec_z_bledem_iteracja]
  · intro c c' hk hne
    cases hk with
    | strateg s llm => simp [zastosuj_iteracja, strateg_iteracja]
    | pisarz s llm => simp [zastosuj_iteracja, pisarz_iteracja]
    | produkcja s wA wV hA hV => simp [zastosuj_iteracja, produkcja_iteracja hA hV]
    | recenzent s llm => exact absurd rfl hne
    | kompozycja s srod => simp [zastosuj_iteracja, kompozytor_iteracja]
    | blad s => simp [zastosuj_iteracja, koniec_z_bledem_iteracja]
  · intro c c' hk he
    cases hk with
    | strateg s llm => simp at he
    | pisarz s llm => simp at he
    | produkcja s wA wV hA hV => simp at he
    | recenzent s llm => simp [zastosuj_iteracja, recenzent_iteracja]
    | kompozycja s srod => simp at he
    | blad s => simp at he

/-- C7, witness: instantiated at the initial configuration, a strategist
step, and a reviewer step of the concrete session. -/
theorem C7_swiadek :
    konfigBazowa.stan.iteracja ≤ MAKS_PONOWNYCH_PROB ∧
    konfigBazowa.stan.iteracja ≤ konfigPoStrategu.stan.iteracja ∧
    konfigPoStrategu.stan.iteracja = konfigBazowa.stan.iteracja ∧
    konfigPoRecenzencie.stan.iteracja = konfigRecenzent.stan.iteracja + 1 :=
  ⟨C7_inwariant_iteracji.1 konfigBazowa
      ⟨"brief", ⟨""⟩, "", [], "sesja", 0, Relation.ReflTransGen.refl⟩,
   C7_inwariant_iteracji.2.1 konfigBazowa konfigPoStrategu krok_strateg_przyklad,
   C7_inwariant_iteracji.2.2.1 konfigBazowa konfigPoStrategu krok_strateg_przyklad
     (by decide),
   C7_inwariant_iteracji.2.2.2 konfigRecenzent konfigPoRecenzencie krok_recenzent_przyklad
     rfl⟩

/-- C9: every engine step only appends to the error list (the merged state's
`bledy` is the old list with the step's new entries at the end), and the
parallel fan-in dict merge likewise concatenates error entries in order. -/
theorem C9_bledy_tylko_dopisywane :
    (∀ c c' : Konfig, Krok c c' → ∃ nowe, c'.stan.bledy = c.stan.bledy ++ nowe) ∧
    (∀ scalony wynik : Aktualizacja,
       (scal_slownik scalony wynik).bledy = scalony.bledy ++ wynik.bledy) := by
  constructor
  · intro c c' hk
    cases hk with
    | strateg s llm => exact ⟨(strateg_tresci s llm).bledy, rfl⟩
    | pisarz s llm => exact ⟨(pisarz_scenariuszy s llm).bledy, rfl⟩
    | produkcja s wA wV hA hV => exact ⟨(producja_rownolegle [wA, wV]).bledy, rfl⟩
    | recenzent s llm => exact ⟨(recenzent_jakosci s llm).bledy, rfl⟩
    | kompozycja s srod => exact ⟨(kompozytor s srod).bledy, rfl⟩
    | blad s => exact ⟨(koniec_z_bledem s).bledy, rfl⟩
  · intro scalony wynik
    rfl

/-- C9, witness: a concrete strategist step and a concrete dict merge. -/
theorem C9_swiadek :
    (∃ nowe, konfigPoStrategu.stan.bledy = konfigBazowa.stan.bledy ++ nowe) ∧
    (scal_slownik pusta pusta).bledy = pusta.bledy ++ pusta.bledy :=
  ⟨C9_bledy_tylko_dopisywane.1 konfigBazowa konfigPoStrategu krok_strateg_przyklad,
   C9_bledy_tylko_dopisywane.2 pusta pusta⟩

/-- C2: the fan-in cost merge double-counts the shared base.  On `stanC2`
(base cost 0.1 USD) both branches succeed: the voice director reports
`base + 0.000078` (78 characters-worth of TTS) and the visual producer
`base + 0.08` (two DALL-E images), yet the merged total is
`2*base + 0.000078 + 0.08`, not the claimed `base + 0.000078 + 0.08`. -/
theorem C2_koszt_podwojona_baza :
    stanC2.koszt_calkowity_usd = 1/10 ∧
    (rezyser_glosu stanC2 (Except.ok ())).koszt_calkowity_usd
      = some (stanC2.koszt_calkowity_usd + 78/1000000) ∧
    (producent_wizualny stanC2 srodProducentaOK).koszt_calkowity_usd
      = some (stanC2.koszt_calkowity_usd + 8/100) ∧
    (producja_rownolegle [WynikGalezi.slownik (rezyser_glosu stanC2 (Except.ok ())),
        WynikGalezi.slownik (producent_wizualny stanC2 srodProducentaOK)]).koszt_calkowity_usd
      = some (2 * stanC2.koszt_calkowity_usd + 78/1000000 + 8/100) ∧
    2 * stanC2.koszt_calkowity_usd + 78/1000000 + 8/100
      ≠ stanC2.koszt_calkowity_usd + 78/1000000 + 8/100 := by
  refine ⟨rfl, ?_, ?_, ?_, ?_⟩
  · simp [rezyser_glosu, stanC2, stanBazowy, stan_poczatkowy, scenariuszTest, scenaTest,
      generuj_audio_sceny, przytnij, zlacz, pusta]
    norm_num [show ("abcd".length = 4) from rfl]
  · simp [producent_wizualny, stanC2, stanBazowy, stan_poczatkowy, scenariuszTest, scenaTest,
      srodProducentaOK, partie3, MAKS_OBRAZOW_NA_SCENA, pusta]
    norm_num
  · simp [producja_rownolegle, scal_slownik, rezyser_glosu, producent_wizualny,
      stanC2, stanBazowy, stan_poczatkowy, scenariuszTest, scenaTest, srodProducentaOK,
      generuj_audio_sceny, przytnij, zlacz, partie3, MAKS_OBRAZOW_NA_SCENA, pusta, nadpisz]
    norm_num [show ("abcd".length = 4) from rfl]
  · norm_num [stanC2, stanBazowy, stan_poczatkowy]

/-- Helper: the three-way case split of the post-review router. -/
theorem routing_przypadki (st : StanNEXUS) :
    (st.ocena_jakosci.map OcenaJakosci.zatwierdzone = some true →
       routing_po_recenzji st = CelPoRecenzji.compositor) ∧
    (st.ocena_jakosci.map OcenaJakosci.zatwierdzone ≠ some true →
       st.iteracja < MAKS_PONOWNYCH_PROB →
       routing_po_recenzji st = CelPoRecenzji.pisarz_scenariuszy) ∧
    (st.ocena_jakosci.map OcenaJakosci.zatwierdzone ≠ some true →
       MAKS_PONOWNYCH_PROB ≤ st.iteracja →
       routing_po_recenzji st = CelPoRecenzji.koniec_z_bledem) := by
  refine ⟨?_, ?_, ?_⟩ <;> intro hz <;>
    rcases hoc : st.ocena_jakosci with _ | ocena
  · rw [hoc] at hz
    simp at hz
  · rw [hoc] at hz
    simp at hz
    simp [routing_po_recenzji, hoc, hz]
  · intro hlt
    have : ¬ MAKS_PONOWNYCH_PROB ≤ st.iteracja := by omega
    simp [routing_po_recenzji, hoc, this]
  · intro hlt
    have hb : ocena.zatwierdzone = false := by
      rcases Bool.eq_false_or_eq_true ocena.zatwierdzone with hb | hb
      · exact absurd (by simp [hoc, hb]) hz
      · exact hb
    have : ¬ MAKS_PONOWNYCH_PROB ≤ st.iteracja := by omega
    simp [routing_po_recenzji, hoc, hb, this]
  · intro hge
    simp [routing_po_recenzji, hoc, hge]
  · intro hge
    have hb : ocena.zatwierdzone = false := by
      rcases Bool.eq_false_or_eq_true ocena.zatwierdzone with hb | hb
      · exact absurd (by simp [hoc, hb]) hz
      · exact hb
    simp [routing_po_recenzji, hoc, hb, hge]

/-- C3: the quality gate is three-way.  With complete inputs and a parsed
review response, the computed review is approved exactly when the score
reaches `PROG_JAKOSCI` (equality accepts) and the router then picks
"compositor"; below the threshold it picks "pisarz_scenariuszy" while the
(post-increment) iteration counter is below `MAKS_PONOWNYCH_PROB`, and
"koniec_z_bledem" otherwise. -/
theorem C3_brama_jakosci (stan : StanNEXUS) (dane : DaneRecenzji) (uzycie : Uzycie)
    (s' : StanNEXUS) (w : Int)
    (hs : stan.scenariusz.isSome = true) (ha : stan.audio.isSome = true)
    (hw : stan.wizualia.isSome = true)
    (hs' : s' = zastosuj stan (recenzent_jakosci stan (WynikLLM.odpowiedz dane uzycie)))
    (hww : w = dane.wynik_ogolny.getD 70) :
    (PROG_JAKOSCI ≤ w →
       s'.ocena_jakosci.map OcenaJakosci.zatwierdzone = some true ∧
       routing_po_recenzji s' = CelPoRecenzji.compositor) ∧
    (w < PROG_JAKOSCI → s'.iteracja < MAKS_PONOWNYCH_PROB →
       routing_po_recenzji s' = CelPoRecenzji.pisarz_scenariuszy) ∧
    (w < PROG_JAKOSCI → MAKS_PONOWNYCH_PROB ≤ s'.iteracja →
       routing_po_recenzji s' = CelPoRecenzji.koniec_z_bledem) := by
  subst hs' hww
  have hguard : (stan.scenariusz.isSome && stan.audio.isSome && stan.wizualia.isSome)
      = true := by
    simp [hs, ha, hw]
  have hmap : (zastosuj stan (recenzent_jakosci stan
      (WynikLLM.odpowiedz dane uzycie))).ocena_jakosci.map OcenaJakosci.zatwierdzone
      = some (decide (PROG_JAKOSCI ≤ dane.wynik_ogolny.getD 70)) := by
    simp [recenzent_jakosci, hguard, zastosuj, nadpisz, pusta]
  refine ⟨?_, ?_, ?_⟩
  · intro hle
    have hdec : decide (PROG_JAKOSCI ≤ dane.wynik_ogolny.getD 70) = true :=
      decide_eq_true hle
    refine ⟨by rw [hmap, hdec], ?_⟩
    exact (routing_przypadki _).1 (by rw [hmap, hdec])
  · intro hlt hit
    have hdec : decide (PROG_JAKOSCI ≤ dane.wynik_ogolny.getD 70) = false :=
      decide_eq_false (by omega)
    exact (routing_przypadki _).2.1 (by rw [hmap, hdec]; simp) hit
  · intro hlt hge
    have hdec : decide (PROG_JAKOSCI ≤ dane.wynik_ogolny.getD 70) = false :=
      decide_eq_false (by omega)
    exact (routing_przypadki _).2.2 (by rw [hmap, hdec]; simp) hge

/-- C3, witness: on the complete state a 90-point review routes to
"compositor", a 40-point review routes back to "pisarz_scenariuszy" on the
first pass, and to "koniec_z_bledem" once the incremented counter reaches
the cap. -/
theorem C3_swiadek :
    routing_po_recenzji (zastosuj stanKompletny (recenzent_jakosci stanKompletny
        (WynikLLM.odpowiedz dane90 uzycieTest))) = CelPoRecenzji.compositor ∧
    routing_po_recenzji (zastosuj stanKompletny (recenzent_jakosci stanKompletny
        (WynikLLM.odpowiedz dane40 uzycieTest))) = CelPoRecenzji.pisarz_scenariuszy ∧
    routing_po_recenzji (zastosuj stanKompletny2 (recenzent_jakosci stanKompletny2
        (WynikLLM.odpowiedz dane40 uzycieTest))) = CelPoRecenzji.koniec_z_bledem :=
  ⟨((C3_brama_jakosci stanKompletny dane90 uzycieTest _ _ rfl rfl rfl rfl rfl).1
      (by decide)).2,
   (C3_brama_jakosci stanKompletny dane40 uzycieTest _ _ rfl rfl rfl rfl rfl).2.1
      (by decide) (by decide),
   (C3_brama_jakosci stanKompletny2 dane40 uzycieTest _ _ rfl rfl rfl rfl rfl).2.2
      (by decide) (by decide)⟩

/-- C5: the fan-in of the two declared branches keeps exactly the successful
branches' outputs (`audio` from branch 0, `wizualia` from branch 1), merged
in declared order, records exactly one error per failed branch (a raised
exception or a returned error dict), touches no other output field, and
still yields a mergeable update when both branches fail. -/
theorem C5_scalanie_rownolegle (s : StanNEXUS) (wA wV : WynikGalezi)
    (hA : MozliwaGalazAudio s wA) (hV : MozliwaGalazWizualna s wV) :
    (producja_rownolegle [wA, wV]).audio = audioGalezi wA ∧
    (producja_rownolegle [wA, wV]).wizualia = wizualiaGalezi wV ∧
    (producja_rownolegle [wA, wV]).bledy = bledyGalezi wA ++ bledyGalezi wV ∧
    ((audioGalezi wA).isSome = true → bledyGalezi wA = []) ∧
    (audioGalezi wA = none → (bledyGalezi wA).length = 1) ∧
    ((wizualiaGalezi wV).isSome = true → bledyGalezi wV = []) ∧
    (wizualiaGalezi wV = none → (bledyGalezi wV).length = 1) ∧
    (producja_rownolegle [wA, wV]).plan_tresci = none ∧
    (producja_rownolegle [wA, wV]).scenariusz = none ∧
    (producja_rownolegle [wA, wV]).ocena_jakosci = none ∧
    (producja_rownolegle [wA, wV]).ocena_wiralnosci = none ∧
    (producja_rownolegle [wA, wV]).wideo = none ∧
    (producja_rownolegle [wA, wV]).iteracja = none := by
  rcases hA with ⟨kA, rfl⟩ | ⟨tts, rfl⟩ <;> rcases hV with ⟨kV, rfl⟩ | ⟨srod, rfl⟩
  · simp [producja_rownolegle, audioGalezi, wizualiaGalezi, bledyGalezi, pusta]
  · obtain ⟨p1, p2, p3, p4, p5, p6, p7, p8, p9⟩ := producent_pola s srod
    simp only [producja_rownolegle, List.foldl, scal_slownik, nadpisz_none_lewo,
      nadpisz_none_prawo, pusta, audioGalezi, wizualiaGalezi, bledyGalezi,
      p1, p2, p3, p4, p5, p6, p7]
    refine ⟨?_, ?_, ?_, ?_, ?_, ?_, ?_, ?_, ?_, ?_, ?_, ?_, ?_⟩ <;>
      first
        | exact p8
        | exact p9
        | rfl
        | trivial
        | simp
  · obtain ⟨r1, r2, r3, r4, r5, r6, r7, r8, r9⟩ := rezyser_pola s tts
    simp only [producja_rownolegle, List.foldl, scal_slownik, nadpisz_none_lewo,
      nadpisz_none_prawo, pusta, audioGalezi, wizualiaGalezi, bledyGalezi,
      r1, r2, r3, r4, r5, r6, r7]
    refine ⟨?_, ?_, ?_, ?_, ?_, ?_, ?_, ?_, ?_, ?_, ?_, ?_, ?_⟩ <;>
      first
        | exact r8
        | exact r9
        | rfl
        | trivial
        | simp
  · obtain ⟨r1, r2, r3, r4, r5, r6, r7, r8, r9⟩ := rezyser_pola s tts
    obtain ⟨p1, p2, p3, p4, p5, p6, p7, p8, p9⟩ := producent_pola s srod
    simp only [producja_rownolegle, List.foldl, scal_slownik, nadpisz_none_lewo,
      nadpisz_none_prawo, pusta, audioGalezi, wizualiaGalezi, bledyGalezi,
      r1, r2, r3, r4, r5, r6, r7, p1, p2, p3, p4, p5, p6, p7]
    refine ⟨?_, ?_, ?_, ?_, ?_, ?_, ?_, ?_, ?_, ?_, ?_, ?_, ?_⟩ <;>
      first
        | exact r8
        | exact r9
        | exact p8
        | exact p9
        | rfl
        | trivial

/-- C5, witness: on the fresh state (no script yet) both branches fail with
their guard errors; the merged update carries exactly the two error records
in declared order and no output field. -/
theorem C5_swiadek :
    (producja_rownolegle [wAprzyklad, wVprzyklad]).audio = audioGalezi wAprzyklad ∧
    (producja_rownolegle [wAprzyklad, wVprzyklad]).wizualia = wizualiaGalezi wVprzyklad ∧
    (producja_rownolegle [wAprzyklad, wVprzyklad]).bledy
      = bledyGalezi wAprzyklad ++ bledyGalezi wVprzyklad ∧
    ((audioGalezi wAprzyklad).isSome = true → bledyGalezi wAprzyklad = []) ∧
    (audioGalezi wAprzyklad = none → (bledyGalezi wAprzyklad).length = 1) ∧
    ((wizualiaGalezi wVprzyklad).isSome = true → bledyGalezi wVprzyklad = []) ∧
    (wizualiaGalezi wVprzyklad = none → (bledyGalezi wVprzyklad).length = 1) ∧
    (producja_rownolegle [wAprzyklad, wVprzyklad]).plan_tresci = none ∧
    (producja_rownolegle [wAprzyklad, wVprzyklad]).scenariusz = none ∧
    (producja_rownolegle [wAprzyklad, wVprzyklad]).ocena_jakosci = none ∧
    (producja_rownolegle [wAprzyklad, wVprzyklad]).ocena_wiralnosci = none ∧
    (producja_rownolegle [wAprzyklad, wVprzyklad]).wideo = none ∧
    (producja_rownolegle [wAprzyklad, wVprzyklad]).iteracja = none :=
  C5_scalanie_rownolegle stanBazowy wAprzyklad wVprzyklad
    (Or.inr ⟨Except.ok (), rfl⟩) (Or.inr ⟨srodProducentaOK, rfl⟩)

end ViraLoop
